import Mathlib

/-!
# SM5714 battery miniclass: tag lifecycle, dispatch and telemetry decoding

A shallow embedding of `SM5714Battery/src/miniclass.c`.

* Machine integers are `Nat`/`Int` with explicit reduction at the places where the
  C code stores into a fixed-width object (`ULONG_of`, `LONG_of`, `% 65536`).
* The device extension is passed explicitly and returned by every callback.
* The fuel gauge behind the bus is an arbitrary function from the command sent to the
  outcome of the exchange; every callback also returns the list of exchanges it issued.
* Tracing and the state lock are not modelled.
-/

namespace SM5714Battery

/-! ## Platform constants (ntstatus.h, batclass.h) -/

/-- NTSTATUS values are kept as their unsigned 32-bit pattern. -/
def STATUS_SUCCESS : Nat := 0x00000000

def STATUS_INVALID_PARAMETER : Nat := 0xC000000D

def STATUS_NO_SUCH_DEVICE : Nat := 0xC000000E

def STATUS_INVALID_DEVICE_REQUEST : Nat := 0xC0000010

def STATUS_BUFFER_TOO_SMALL : Nat := 0xC0000023

def STATUS_NOT_SUPPORTED : Nat := 0xC00000BB

def STATUS_INVALID_PARAMETER_4 : Nat := 0xC00000F2

/-- The macro `NT_SUCCESS(Status)` is `((NTSTATUS)(Status)) >= 0` on a signed 32-bit value,
that is, the top bit of the pattern is clear. -/
def NT_SUCCESS (Status : Nat) : Bool := decide (Status < 0x80000000)

/-- The reserved tag value of batclass.h. -/
def BATTERY_TAG_INVALID : Nat := 0

def BATTERY_SYSTEM_BATTERY : Nat := 0x80000000

def BATTERY_POWER_ON_LINE : Nat := 0x00000001

def BATTERY_DISCHARGING : Nat := 0x00000002

def MAX_BATTERY_STRING_SIZE : Nat := 128

/-! The enumeration `BATTERY_QUERY_INFORMATION_LEVEL`, as the integers C gives it. -/

def BatteryInformation : Nat := 0

def BatteryGranularityInformation : Nat := 1

def BatteryTemperature : Nat := 2

def BatteryEstimatedTime : Nat := 3

def BatteryDeviceName : Nat := 4

def BatteryManufactureDate : Nat := 5

def BatteryManufactureName : Nat := 6

def BatteryUniqueID : Nat := 7

def BatterySerialNumber : Nat := 8

/-! The enumeration `BATTERY_SET_INFORMATION_LEVEL`. -/

def BatteryCriticalBias : Nat := 0

def BatteryCharge : Nat := 1

def BatteryDischarge : Nat := 2

def BatteryChargingSource : Nat := 3

def BatteryChargerId : Nat := 4

def BatteryChargerStatus : Nat := 5

/-! ## Fixed-width conversions -/

/-- Conversion to `ULONG` (32-bit unsigned): reduction modulo 2^32. -/
def ULONG_of (x : Int) : Nat := (x % 4294967296).toNat

/-- Conversion to `LONG`/`int` (32-bit two's complement). -/
def LONG_of (x : Int) : Int := (x + 2147483648) % 4294967296 - 2147483648

/-- The four bytes of a 32-bit object, least significant first. -/
def ULONG_bytes (v : Nat) : List Nat :=
  [v % 256, v / 256 % 256, v / 65536 % 256, v / 16777216 % 256]

/-- The two bytes of a 16-bit object, least significant first. -/
def USHORT_bytes (v : Nat) : List Nat := [v % 256, v / 256 % 256]

/-- The bytes of an array of `WCHAR`. -/
def WCHAR_bytes : List Nat → List Nat
  | [] => []
  | c :: cs => USHORT_bytes c ++ WCHAR_bytes cs

/-- The `ULONG` stored in the first four bytes of a buffer. -/
def ULONG_at (bytes : List Nat) : Nat :=
  bytes.getD 0 0 + 256 * bytes.getD 1 0 + 65536 * bytes.getD 2 0 + 16777216 * bytes.getD 3 0

/-- The `LONG` stored in the first four bytes of a buffer. -/
def LONG_at (bytes : List Nat) : Int := LONG_of (ULONG_at bytes)

/-- The library call `memcpy(dst, src, n)`: the first `n` bytes of the destination are replaced. -/
def memcpy (dst src : List Nat) (n : Nat) : List Nat := src.take n ++ dst.drop n

/-! ## Data model -/

/-- The fields of the device extension the callbacks read or write. -/
structure SM5714_BATTERY_FDO_DATA where
  BatteryTag : Nat
  deriving DecidableEq

/-- The command byte sequences of `SM5714Battery_regs.h`, by name. -/
inductive SpbCommand where
  | write_capacity
  | write_ocv
  | write_current
  | write_temperature
  | write_cycle
  deriving DecidableEq

/-- Outcome of one bus exchange: the status returned and the 16-bit word delivered into the
read buffer, `none` when the exchange leaves the read buffer as it was. -/
structure SpbTransfer where
  Status : Nat
  Data : Option Nat

/-- Behaviour of the fuel gauge behind the bus during one callback. -/
abbrev SPB_CONTEXT := SpbCommand → SpbTransfer

/-- Modelled from the spec: `SpbWriteRead` of Spb.c, which is not among the sources, is the
Bus Exchange Port, "write a fixed command sequence, then read back `read_len` bytes
synchronously", giving raw bytes or an error. The result is the status and the new content of
the two-byte read buffer. -/
def SpbWriteRead (I2CContext : SPB_CONTEXT) (Command : SpbCommand) (ReadBuffer : Nat) :
    Nat × Nat :=
  match (I2CContext Command).Data with
  | some word => ((I2CContext Command).Status, word % 65536)
  | none => ((I2CContext Command).Status, ReadBuffer)

structure BATTERY_INFORMATION where
  Capabilities : Nat
  Technology : Nat
  Reserved : List Nat
  Chemistry : List Nat
  DesignedCapacity : Nat
  FullChargedCapacity : Nat
  DefaultAlert1 : Nat
  DefaultAlert2 : Nat
  CriticalBias : Nat
  CycleCount : Nat
  deriving DecidableEq

/-- Memory image of `BATTERY_INFORMATION` (36 bytes). -/
def BATTERY_INFORMATION.bytes (b : BATTERY_INFORMATION) : List Nat :=
  ULONG_bytes b.Capabilities ++ [b.Technology % 256] ++ b.Reserved.take 3 ++ b.Chemistry.take 4 ++
    ULONG_bytes b.DesignedCapacity ++ ULONG_bytes b.FullChargedCapacity ++
    ULONG_bytes b.DefaultAlert1 ++ ULONG_bytes b.DefaultAlert2 ++
    ULONG_bytes b.CriticalBias ++ ULONG_bytes b.CycleCount

structure BATTERY_STATUS where
  PowerState : Nat
  Capacity : Nat
  Voltage : Nat
  Rate : Int
  deriving DecidableEq

structure BATTERY_NOTIFY where
  PowerState : Nat
  LowCapacity : Nat
  HighCapacity : Nat
  deriving DecidableEq

structure BATTERY_MANUFACTURE_DATE where
  Day : Nat
  Month : Nat
  Year : Nat
  deriving DecidableEq

/-- Memory image of `BATTERY_MANUFACTURE_DATE` (4 bytes). -/
def BATTERY_MANUFACTURE_DATE.bytes (d : BATTERY_MANUFACTURE_DATE) : List Nat :=
  [d.Day % 256, d.Month % 256] ++ USHORT_bytes d.Year

structure BATTERY_REPORTING_SCALE where
  Granularity : Nat
  Capacity : Nat
  deriving DecidableEq

/-- Memory image of `BATTERY_REPORTING_SCALE` (8 bytes). -/
def BATTERY_REPORTING_SCALE.bytes (s : BATTERY_REPORTING_SCALE) : List Nat :=
  ULONG_bytes s.Granularity ++ ULONG_bytes s.Capacity

/-! ## Tag manager -/

/-- `SM5714BatteryUpdateTag`: `BatteryTag += 1`, and once more when the sum is the reserved
value. The additions are on a `ULONG`. -/
def SM5714BatteryUpdateTag (DevExt : SM5714_BATTERY_FDO_DATA) : SM5714_BATTERY_FDO_DATA :=
  let DevExt1 : SM5714_BATTERY_FDO_DATA := { DevExt with BatteryTag := ULONG_of (DevExt.BatteryTag + 1) }
  if DevExt1.BatteryTag = BATTERY_TAG_INVALID then
    { DevExt1 with BatteryTag := ULONG_of (DevExt1.BatteryTag + 1) }
  else
    DevExt1

/-- `SM5714BatteryPrepareHardware`: updates the tag under the state lock. -/
def SM5714BatteryPrepareHardware (DevExt : SM5714_BATTERY_FDO_DATA) : SM5714_BATTERY_FDO_DATA :=
  SM5714BatteryUpdateTag DevExt

structure QUERY_TAG_RESULT where
  Status : Nat
  BatteryTag : Nat
  DevExt : SM5714_BATTERY_FDO_DATA

/-- `SM5714BatteryQueryTag`. -/
def SM5714BatteryQueryTag (DevExt : SM5714_BATTERY_FDO_DATA) : QUERY_TAG_RESULT :=
  let BatteryTag := DevExt.BatteryTag
  if BatteryTag = BATTERY_TAG_INVALID then
    { Status := STATUS_NO_SUCH_DEVICE, BatteryTag := BatteryTag, DevExt := DevExt }
  else
    { Status := STATUS_SUCCESS, BatteryTag := BatteryTag, DevExt := DevExt }

/-! ## Static information -/

structure QUERY_BATTERY_INFORMATION_RESULT where
  Status : Nat
  BatteryInformationResult : BATTERY_INFORMATION
  Exchanges : List SpbCommand

/-- `SM5714BatteryQueryBatteryInformation`: fills the descriptor, then fetches the cycle
count; a failed exchange leaves through `Exit` with the status of the exchange. -/
def SM5714BatteryQueryBatteryInformation (I2CContext : SPB_CONTEXT)
    (BatteryInformationResult : BATTERY_INFORMATION) : QUERY_BATTERY_INFORMATION_RESULT :=
  let R : BATTERY_INFORMATION := { BatteryInformationResult with
    Capabilities := BATTERY_SYSTEM_BATTERY, Technology := 1 }
  let LION : List Nat := ['L'.toNat, 'I'.toNat, 'O'.toNat, 'N'.toNat]
  let R : BATTERY_INFORMATION := { R with Chemistry := memcpy R.Chemistry LION 4 }
  let R : BATTERY_INFORMATION := { R with DesignedCapacity := 19800, FullChargedCapacity := 19228 }
  let R : BATTERY_INFORMATION := { R with
    DefaultAlert1 := ULONG_of (R.FullChargedCapacity * 7) / 100 }
  let R : BATTERY_INFORMATION := { R with
    DefaultAlert2 := ULONG_of (R.FullChargedCapacity * 9) / 100 }
  let R : BATTERY_INFORMATION := { R with CriticalBias := 0 }
  let rawCycle : Nat := 0
  let (Status, rawCycle) := SpbWriteRead I2CContext SpbCommand.write_cycle rawCycle
  if !NT_SUCCESS Status then
    { Status := Status, BatteryInformationResult := R, Exchanges := [SpbCommand.write_cycle] }
  else
    let CycleCount : Int := if (rawCycle : Int) < 0 then 0 else ((rawCycle &&& 0x00FF : Nat) : Int)
    let R : BATTERY_INFORMATION := { R with CycleCount := ULONG_of CycleCount }
    { Status := Status, BatteryInformationResult := R, Exchanges := [SpbCommand.write_cycle] }

/-- The library call `swprintf_s(buffer, sizeOfBuffer, format, ...)`, given the characters
the format expands to: they are stored followed by a terminating null; text that does not fit
leaves an empty string. -/
def swprintf_s (buffer : List Nat) (sizeOfBuffer : Nat) (formatted : List Nat) : List Nat :=
  if formatted.length < sizeOfBuffer then
    memcpy buffer (formatted ++ [0]) (formatted.length + 1)
  else
    memcpy buffer [0] 1

/-- Number of characters before the first null among the characters given, if there is one. -/
def wcsnlen : List Nat → Option Nat
  | [] => none
  | c :: cs => if c = 0 then some 0 else (wcsnlen cs).map (fun n => n + 1)

/-- The library call `RtlStringCbLengthW(psz, cbMax, pcbLength)`: the byte length of the string
without its terminator, or `STATUS_INVALID_PARAMETER` with length 0 when no terminator is found
in the first `cbMax` bytes. -/
def RtlStringCbLengthW (psz : List Nat) (cbMax : Nat) : Nat × Nat :=
  match wcsnlen (psz.take (cbMax / 2)) with
  | some cch => (STATUS_SUCCESS, cch * 2)
  | none => (STATUS_INVALID_PARAMETER, 0)

/-- The locals of `SM5714BatteryQueryInformation` that are live at the label `Exit`. -/
structure QUERY_INFORMATION_LOCALS where
  Status : Nat
  ReturnBuffer : Option (List Nat)
  ReturnBufferLength : Nat
  Exchanges : List SpbCommand

/-- The string levels of the switch: the text is formatted into `StringResult`, measured,
and returned with its terminator. -/
def QueryInformationString (formatted : List Nat) : QUERY_INFORMATION_LOCALS :=
  let StringResult : List Nat := List.replicate MAX_BATTERY_STRING_SIZE 0
  let sizeofStringResult : Nat := MAX_BATTERY_STRING_SIZE * 2
  let StringResult := swprintf_s StringResult (sizeofStringResult / 2) formatted
  let (Status, ReturnBufferLength) := RtlStringCbLengthW StringResult sizeofStringResult
  if !NT_SUCCESS Status then
    { Status := Status, ReturnBuffer := none, ReturnBufferLength := ReturnBufferLength,
      Exchanges := [] }
  else
    { Status := STATUS_SUCCESS, ReturnBuffer := some (WCHAR_bytes StringResult),
      ReturnBufferLength := ReturnBufferLength + 2, Exchanges := [] }

/-- The temperature computed at level `BatteryTemperature` from the raw word, as the `int`
local `Temperature` holds it when it is returned. -/
def QueryInformationTemperature (rawTemp : Nat) : Int :=
  let Temperature : Int :=
    if (rawTemp : Int) < 0 then
      0
    else
      let Temperature : Int := LONG_of ((((rawTemp &&& 0x7fff) >>> 8) * 10 : Nat) : Int)
      let Temperature : Int := LONG_of (Temperature + ((((rawTemp &&& 0x00f0) * 10) / 256 : Nat) : Int))
      if rawTemp &&& 0x8000 ≠ 0 then LONG_of (Temperature * -1) else Temperature
  LONG_of ((ULONG_of Temperature / ULONG_of 10 : Nat) : Int)

/-- The part of `SM5714BatteryQueryInformation` from the initialisation of `ReturnBuffer` to the
label `Exit`: the switch on `Level`. -/
def QueryInformationSwitch (I2CContext : SPB_CONTEXT) (Level : Nat) : QUERY_INFORMATION_LOCALS :=
  if Level = BatteryInformation then
    let r := SM5714BatteryQueryBatteryInformation I2CContext
      { Capabilities := 0, Technology := 0, Reserved := [0, 0, 0], Chemistry := [0, 0, 0, 0],
        DesignedCapacity := 0, FullChargedCapacity := 0, DefaultAlert1 := 0, DefaultAlert2 := 0,
        CriticalBias := 0, CycleCount := 0 }
    if !NT_SUCCESS r.Status then
      { Status := r.Status, ReturnBuffer := none, ReturnBufferLength := 0,
        Exchanges := r.Exchanges }
    else
      { Status := STATUS_SUCCESS, ReturnBuffer := some r.BatteryInformationResult.bytes,
        ReturnBufferLength := 36, Exchanges := r.Exchanges }
  else if Level = BatteryUniqueID then
    QueryInformationString ['S'.toNat, 'M'.toNat, '5'.toNat, '7'.toNat, '1'.toNat, '4'.toNat,
      'F'.toNat, 'G'.toNat]
  else if Level = BatteryManufactureName then
    QueryInformationString [0x53, 0x53]
  else if Level = BatteryDeviceName then
    QueryInformationString [0x53, 0x4D, 0x35, 0x37, 0x31, 0x34]
  else if Level = BatterySerialNumber then
    QueryInformationString ((Nat.toDigits 10 5714).map Char.toNat)
  else if Level = BatteryManufactureDate then
    let ManufactureDate : BATTERY_MANUFACTURE_DATE := { Day := 1, Month := 9, Year := 2021 }
    { Status := STATUS_SUCCESS, ReturnBuffer := some ManufactureDate.bytes,
      ReturnBufferLength := 4, Exchanges := [] }
  else if Level = BatteryGranularityInformation then
    let ReportingScale : BATTERY_REPORTING_SCALE := { Capacity := 4500, Granularity := 1 }
    { Status := STATUS_SUCCESS, ReturnBuffer := some ReportingScale.bytes,
      ReturnBufferLength := 8, Exchanges := [] }
  else if Level = BatteryTemperature then
    let rawTemp : Nat := 0
    let (_, rawTemp) := SpbWriteRead I2CContext SpbCommand.write_temperature rawTemp
    let Temperature : Int := QueryInformationTemperature rawTemp
    { Status := STATUS_SUCCESS, ReturnBuffer := some (ULONG_bytes (ULONG_of Temperature)),
      ReturnBufferLength := 4, Exchanges := [SpbCommand.write_temperature] }
  else
    { Status := STATUS_INVALID_PARAMETER, ReturnBuffer := none, ReturnBufferLength := 0,
      Exchanges := [] }

structure QUERY_INFORMATION_RESULT where
  Status : Nat
  Buffer : Option (List Nat)
  ReturnedLength : Nat
  Exchanges : List SpbCommand
  DevExt : SM5714_BATTERY_FDO_DATA

/-- `SM5714BatteryQueryInformation`. `Buffer` is the content of the caller's buffer (`none` for
a null pointer) and `ReturnedLength` the value `*ReturnedLength` holds before the call. -/
def SM5714BatteryQueryInformation (DevExt : SM5714_BATTERY_FDO_DATA) (I2CContext : SPB_CONTEXT)
    (BatteryTag : Nat) (Level : Nat) (AtRate : Int) (Buffer : Option (List Nat))
    (BufferLength : Nat) (ReturnedLength : Nat) : QUERY_INFORMATION_RESULT :=
  let _ := AtRate
  if BatteryTag ≠ DevExt.BatteryTag then
    { Status := STATUS_NO_SUCH_DEVICE, Buffer := Buffer, ReturnedLength := ReturnedLength,
      Exchanges := [], DevExt := DevExt }
  else
    let l := QueryInformationSwitch I2CContext Level
    if NT_SUCCESS l.Status then
      let ReturnedLength := ULONG_of l.ReturnBufferLength
      match l.ReturnBuffer with
      | some ReturnBuffer =>
        match Buffer with
        | none =>
          { Status := STATUS_BUFFER_TOO_SMALL, Buffer := Buffer, ReturnedLength := ReturnedLength,
            Exchanges := l.Exchanges, DevExt := DevExt }
        | some Bytes =>
          if BufferLength < l.ReturnBufferLength then
            { Status := STATUS_BUFFER_TOO_SMALL, Buffer := Buffer,
              ReturnedLength := ReturnedLength, Exchanges := l.Exchanges, DevExt := DevExt }
          else
            { Status := l.Status, Buffer := some (memcpy Bytes ReturnBuffer l.ReturnBufferLength),
              ReturnedLength := ReturnedLength, Exchanges := l.Exchanges, DevExt := DevExt }
      | none =>
        { Status := l.Status, Buffer := Buffer, ReturnedLength := ReturnedLength,
          Exchanges := l.Exchanges, DevExt := DevExt }
    else
      { Status := l.Status, Buffer := Buffer, ReturnedLength := 0, Exchanges := l.Exchanges,
        DevExt := DevExt }

/-! ## Dynamic status -/

/-- Modelled from the spec: the macro `FIXED_POINT_8_8_EXTEND_TO_INT` of SM5714Battery.h, which
is not among the sources: the "8.8 fixed point extended to integer, scaled by" the second
argument, the integer byte times the scale plus the fractional byte times the scale over 256. -/
def FIXED_POINT_8_8_EXTEND_TO_INT (fp_value : Nat) (extend_orders : Nat) : Nat :=
  ((fp_value &&& 0xff00) >>> 8) * extend_orders + ((fp_value &&& 0xff) * extend_orders) / 256

/-- The local `Voltage` of `SM5714BatteryQueryStatus` computed from the raw word. -/
def QueryStatusVoltage (rawOcv : Nat) : Nat :=
  if (rawOcv : Int) < 0 then
    4000
  else
    let Voltage : Nat := ULONG_of ((((rawOcv &&& 0x3800) >>> 11) * 1000 : Nat) : Int)
    ULONG_of ((Voltage + ((rawOcv &&& 0x07ff) * 1000) / 2048 : Nat) : Int)

/-- The local `Current` of `SM5714BatteryQueryStatus` computed from the raw word. -/
def QueryStatusCurrent (rawCurr : Nat) : Int :=
  let Current : Int := LONG_of ((((rawCurr &&& 0x1800) >>> 11) * 1000 : Nat) : Int)
  let Current : Int := LONG_of (Current + ((((rawCurr &&& 0x07ff) * 1000) / 2048 : Nat) : Int))
  if rawCurr &&& 0x8000 ≠ 0 then LONG_of (Current * -1) else Current

structure QUERY_STATUS_RESULT where
  Status : Nat
  BatteryStatus : BATTERY_STATUS
  Exchanges : List SpbCommand
  DevExt : SM5714_BATTERY_FDO_DATA

/-- `SM5714BatteryQueryStatus`. `BatteryStatus` is the content of the caller's structure before
the call. The status of each of the three exchanges is only traced. -/
def SM5714BatteryQueryStatus (DevExt : SM5714_BATTERY_FDO_DATA) (I2CContext : SPB_CONTEXT)
    (BatteryTag : Nat) (BatteryStatus : BATTERY_STATUS) : QUERY_STATUS_RESULT :=
  if BatteryTag ≠ DevExt.BatteryTag then
    { Status := STATUS_NO_SUCH_DEVICE, BatteryStatus := BatteryStatus, Exchanges := [],
      DevExt := DevExt }
  else
    let rawCapacity : Nat := 0
    let (_, rawCapacity) := SpbWriteRead I2CContext SpbCommand.write_capacity rawCapacity
    let Capacity : Nat := ULONG_of (FIXED_POINT_8_8_EXTEND_TO_INT (rawCapacity % 65536) 10 : Nat)
    let rawOcv : Nat := 0
    let (_, rawOcv) := SpbWriteRead I2CContext SpbCommand.write_ocv rawOcv
    let Voltage : Nat := QueryStatusVoltage rawOcv
    let rawCurr : Nat := 0
    let (_, rawCurr) := SpbWriteRead I2CContext SpbCommand.write_current rawCurr
    let Current : Int := QueryStatusCurrent rawCurr
    let BatteryStatus : BATTERY_STATUS :=
      if Current ≥ 30 then
        { BatteryStatus with PowerState := BATTERY_POWER_ON_LINE }
      else
        { BatteryStatus with PowerState := BATTERY_DISCHARGING }
    let BatteryStatus : BATTERY_STATUS := { BatteryStatus with
      Capacity := ULONG_of (Capacity * 19228 : Nat) / 1000 }
    let BatteryStatus : BATTERY_STATUS := { BatteryStatus with Voltage := Voltage }
    let BatteryStatus : BATTERY_STATUS := { BatteryStatus with
      Rate := LONG_of (Int.tdiv (LONG_of (LONG_of Current * LONG_of Voltage)) 1000) }
    { Status := STATUS_SUCCESS, BatteryStatus := BatteryStatus,
      Exchanges := [SpbCommand.write_capacity, SpbCommand.write_ocv, SpbCommand.write_current],
      DevExt := DevExt }

/-! ## Notifications and directives -/

structure DIRECTIVE_RESULT where
  Status : Nat
  Exchanges : List SpbCommand
  DevExt : SM5714_BATTERY_FDO_DATA

/-- `SM5714BatterySetStatusNotify`. -/
def SM5714BatterySetStatusNotify (DevExt : SM5714_BATTERY_FDO_DATA) (BatteryTag : Nat)
    (BatteryNotify : BATTERY_NOTIFY) : DIRECTIVE_RESULT :=
  let _ := BatteryNotify
  if BatteryTag ≠ DevExt.BatteryTag then
    { Status := STATUS_NO_SUCH_DEVICE, Exchanges := [], DevExt := DevExt }
  else
    { Status := STATUS_NOT_SUPPORTED, Exchanges := [], DevExt := DevExt }

/-- `SM5714BatteryDisableStatusNotify`. -/
def SM5714BatteryDisableStatusNotify (DevExt : SM5714_BATTERY_FDO_DATA) : DIRECTIVE_RESULT :=
  { Status := STATUS_NOT_SUPPORTED, Exchanges := [], DevExt := DevExt }

/-- `SM5714BatterySetInformation`. `Buffer` is the payload, `none` for a null pointer; its content
is only traced. -/
def SM5714BatterySetInformation (DevExt : SM5714_BATTERY_FDO_DATA) (BatteryTag : Nat)
    (Level : Nat) (Buffer : Option (List Nat)) : DIRECTIVE_RESULT :=
  if BatteryTag ≠ DevExt.BatteryTag then
    { Status := STATUS_NO_SUCH_DEVICE, Exchanges := [], DevExt := DevExt }
  else if Level = BatteryCharge then
    { Status := STATUS_SUCCESS, Exchanges := [], DevExt := DevExt }
  else if Level = BatteryDischarge then
    { Status := STATUS_SUCCESS, Exchanges := [], DevExt := DevExt }
  else if Buffer = none then
    { Status := STATUS_INVALID_PARAMETER_4, Exchanges := [], DevExt := DevExt }
  else if Level = BatteryChargingSource then
    { Status := STATUS_SUCCESS, Exchanges := [], DevExt := DevExt }
  else if Level = BatteryCriticalBias then
    { Status := STATUS_SUCCESS, Exchanges := [], DevExt := DevExt }
  else if Level = BatteryChargerId then
    { Status := STATUS_SUCCESS, Exchanges := [], DevExt := DevExt }
  else if Level = BatteryChargerStatus then
    { Status := STATUS_SUCCESS, Exchanges := [], DevExt := DevExt }
  else
    { Status := STATUS_NOT_SUPPORTED, Exchanges := [], DevExt := DevExt }

/-! ## The instance as a state machine -/

/-- One call into the instance: the hardware-attach event or one of the six callbacks, with
its arguments and the behaviour of the bus during the call. -/
inductive Request where
  | PrepareHardware
  | QueryTag
  | QueryInformation (I2CContext : SPB_CONTEXT) (BatteryTag : Nat) (Level : Nat) (AtRate : Int)
      (Buffer : Option (List Nat)) (BufferLength : Nat) (ReturnedLength : Nat)
  | QueryStatus (I2CContext : SPB_CONTEXT) (BatteryTag : Nat) (BatteryStatus : BATTERY_STATUS)
  | SetStatusNotify (BatteryTag : Nat) (BatteryNotify : BATTERY_NOTIFY)
  | DisableStatusNotify
  | SetInformation (BatteryTag : Nat) (Level : Nat) (Buffer : Option (List Nat))

/-- The device extension after one call. -/
def Request.next (DevExt : SM5714_BATTERY_FDO_DATA) : Request → SM5714_BATTERY_FDO_DATA
  | Request.PrepareHardware => SM5714BatteryPrepareHardware DevExt
  | Request.QueryTag => (SM5714BatteryQueryTag DevExt).DevExt
  | Request.QueryInformation I2CContext BatteryTag Level AtRate Buffer BufferLength ReturnedLength =>
    (SM5714BatteryQueryInformation DevExt I2CContext BatteryTag Level AtRate Buffer BufferLength
      ReturnedLength).DevExt
  | Request.QueryStatus I2CContext BatteryTag BatteryStatus =>
    (SM5714BatteryQueryStatus DevExt I2CContext BatteryTag BatteryStatus).DevExt
  | Request.SetStatusNotify BatteryTag BatteryNotify =>
    (SM5714BatterySetStatusNotify DevExt BatteryTag BatteryNotify).DevExt
  | Request.DisableStatusNotify => (SM5714BatteryDisableStatusNotify DevExt).DevExt
  | Request.SetInformation BatteryTag Level Buffer =>
    (SM5714BatterySetInformation DevExt BatteryTag Level Buffer).DevExt

/-- The device extension after a sequence of calls, first call first. -/
def runRequests (DevExt : SM5714_BATTERY_FDO_DATA) : List Request → SM5714_BATTERY_FDO_DATA
  | [] => DevExt
  | r :: rs => runRequests (Request.next DevExt r) rs

/-- The tag after `n` successive calls of `SM5714BatteryUpdateTag`. -/
def UpdateTagTimes : Nat → SM5714_BATTERY_FDO_DATA → SM5714_BATTERY_FDO_DATA
  | 0, DevExt => DevExt
  | n + 1, DevExt => UpdateTagTimes n (SM5714BatteryUpdateTag DevExt)

/-! ## Vocabulary of the specification -/

/-- The bit field `bits[hi:lo]` of a word, as a number. -/
def bits (word hi lo : Nat) : Nat := word / 2 ^ lo % 2 ^ (hi + 1 - lo)

/-- The fixed device identifier "SM5714" as a UTF-16 string with its terminator, in bytes. -/
def DeviceNameString : List Nat :=
  WCHAR_bytes ['S'.toNat, 'M'.toNat, '5'.toNat, '7'.toNat, '1'.toNat, '4'.toNat, 0]

/-- The magnitude, in tenths of a degree, that the temperature formula of the specification
gives for a raw word: bits[14:8] * 10 plus the term of the bits[7:4] nibble, (raw AND 0x00f0)
times 10 over 256. -/
def TemperatureMagnitude (rawTemp : Nat) : Nat :=
  bits rawTemp 14 8 * 10 + bits rawTemp 7 4 * 16 * 10 / 256

/-- The statuses of the code that fall under the error kind InvalidParameter of the
specification: STATUS_INVALID_PARAMETER and STATUS_INVALID_PARAMETER_4, the invalid-parameter
status that names the fourth argument of the call, which for set-information is the payload. -/
def InvalidParameterKind (Status : Nat) : Bool :=
  Status == STATUS_INVALID_PARAMETER || Status == STATUS_INVALID_PARAMETER_4

/-- The state of charge in tenths of a percent as the specification words it: the integer byte
of the 8.8 fixed-point word times 10 plus the fractional byte times 10 div 256. -/
def soc_fixed (rawCapacity : Nat) : Nat :=
  bits rawCapacity 15 8 * 10 + bits rawCapacity 7 0 * 10 / 256

/-- A bus on which every exchange succeeds: the state-of-charge, voltage and current exchanges
deliver the three words given, the other exchanges deliver 0. -/
def busDelivering (rawCapacity rawOcv rawCurr : Nat) : SPB_CONTEXT
  | SpbCommand.write_capacity => { Status := STATUS_SUCCESS, Data := some rawCapacity }
  | SpbCommand.write_ocv => { Status := STATUS_SUCCESS, Data := some rawOcv }
  | SpbCommand.write_current => { Status := STATUS_SUCCESS, Data := some rawCurr }
  | _ => { Status := STATUS_SUCCESS, Data := some 0 }

/-- The static battery descriptor as the specification gives it, for a cycle count: chemistry
"LION", designed capacity 19800 mWh, full-charged capacity 19228 mWh, alert thresholds at 7%
and 9% of the full-charged capacity, critical bias 0. -/
def StaticBatteryDescriptor (CycleCount : Nat) : BATTERY_INFORMATION :=
  { Capabilities := BATTERY_SYSTEM_BATTERY, Technology := 1, Reserved := [0, 0, 0],
    Chemistry := ['L'.toNat, 'I'.toNat, 'O'.toNat, 'N'.toNat], DesignedCapacity := 19800,
    FullChargedCapacity := 19228, DefaultAlert1 := 19228 * 7 / 100,
    DefaultAlert2 := 19228 * 9 / 100, CriticalBias := 0, CycleCount := CycleCount }

/-! ## Arithmetic of the fixed-width conversions and of the masks -/

theorem ULONG_of_natCast (n : Nat) : ULONG_of (n : Int) = n % 4294967296 := by
  unfold ULONG_of
  omega

theorem LONG_of_eq_self (x : Int) (lo : -2147483648 ≤ x) (hi : x < 2147483648) :
    LONG_of x = x := by
  unfold LONG_of
  omega

/-- Masking with `w` ones starting at bit `lo` keeps the field `x / 2 ^ lo % 2 ^ w` in place. -/
theorem and_mask (x w lo : Nat) : x &&& ((2 ^ w - 1) * 2 ^ lo) = x / 2 ^ lo % 2 ^ w * 2 ^ lo := by
  apply Nat.eq_of_testBit_eq
  intro j
  rw [Nat.mul_comm (2 ^ w - 1), Nat.mul_comm _ (2 ^ lo)]
  simp only [Nat.testBit_and, Nat.testBit_mul_pow_two, Nat.testBit_two_pow_sub_one,
    Nat.testBit_mod_two_pow, ← Nat.shiftRight_eq_div_pow, Nat.testBit_shiftRight]
  by_cases h : lo ≤ j
  · have e : lo + (j - lo) = j := by omega
    simp [h, e, Bool.and_comm]
  · simp [h]

theorem and_0x1800 (x : Nat) : x &&& 0x1800 = x / 2048 % 4 * 2048 := by
  simpa using and_mask x 2 11

theorem and_0x07ff (x : Nat) : x &&& 0x07ff = x % 2048 := by
  simpa using and_mask x 11 0

theorem and_0x8000 (x : Nat) : x &&& 0x8000 = x / 32768 % 2 * 32768 := by
  simpa using and_mask x 1 15

theorem and_0x3800 (x : Nat) : x &&& 0x3800 = x / 2048 % 8 * 2048 := by
  simpa using and_mask x 3 11

theorem and_0x7fff (x : Nat) : x &&& 0x7fff = x % 32768 := by
  simpa using and_mask x 15 0

theorem and_0x00f0 (x : Nat) : x &&& 0x00f0 = x / 16 % 16 * 16 := by
  simpa using and_mask x 4 4

/-! ## The tag manager -/

/-- The tag after one update, for a tag that fits a `ULONG`. -/
theorem UpdateTag_tag (DevExt : SM5714_BATTERY_FDO_DATA) (h : DevExt.BatteryTag < 4294967296) :
    (SM5714BatteryUpdateTag DevExt).BatteryTag = DevExt.BatteryTag % 4294967295 + 1 := by
  unfold SM5714BatteryUpdateTag BATTERY_TAG_INVALID ULONG_of
  dsimp only
  split <;> rename_i hz <;> dsimp only <;> omega

theorem UpdateTag_tag_ne_invalid (DevExt : SM5714_BATTERY_FDO_DATA) :
    (SM5714BatteryUpdateTag DevExt).BatteryTag ≠ BATTERY_TAG_INVALID := by
  unfold SM5714BatteryUpdateTag BATTERY_TAG_INVALID ULONG_of
  dsimp only
  split <;> rename_i hz <;> dsimp only <;> omega

theorem UpdateTagTimes_succ (n : Nat) (DevExt : SM5714_BATTERY_FDO_DATA) :
    UpdateTagTimes (n + 1) DevExt = SM5714BatteryUpdateTag (UpdateTagTimes n DevExt) := by
  induction n generalizing DevExt with
  | zero => rfl
  | succ k ih =>
    show UpdateTagTimes (k + 1) (SM5714BatteryUpdateTag DevExt) = _
    rw [ih]
    rfl

/-- Closed form of the tag after `n + 1` updates. -/
theorem UpdateTagTimes_tag (n : Nat) (DevExt : SM5714_BATTERY_FDO_DATA)
    (h : DevExt.BatteryTag < 4294967296) :
    (UpdateTagTimes (n + 1) DevExt).BatteryTag = (DevExt.BatteryTag + n) % 4294967295 + 1 := by
  induction n with
  | zero => exact UpdateTag_tag DevExt h
  | succ k ih =>
    rw [UpdateTagTimes_succ, UpdateTag_tag _ (by rw [ih]; omega), ih]
    omega

/-- Only the hardware-attach event changes the device extension. -/
theorem Request.next_eq (DevExt : SM5714_BATTERY_FDO_DATA) (r : Request)
    (h : r ≠ Request.PrepareHardware) : Request.next DevExt r = DevExt := by
  cases r with
  | PrepareHardware => exact absurd rfl h
  | QueryTag => simp only [Request.next, SM5714BatteryQueryTag]; split <;> rfl
  | QueryInformation I2CContext BatteryTag Level AtRate Buffer BufferLength ReturnedLength =>
    simp only [Request.next, SM5714BatteryQueryInformation]
    repeat' split
    all_goals rfl
  | QueryStatus I2CContext BatteryTag BatteryStatus =>
    simp only [Request.next, SM5714BatteryQueryStatus]
    split <;> rfl
  | SetStatusNotify BatteryTag BatteryNotify =>
    simp only [Request.next, SM5714BatterySetStatusNotify]
    split <;> rfl
  | DisableStatusNotify => rfl
  | SetInformation BatteryTag Level Buffer =>
    simp only [Request.next, SM5714BatterySetInformation]
    repeat' split
    all_goals rfl

theorem Request.next_tag_ne_invalid (DevExt : SM5714_BATTERY_FDO_DATA) (r : Request)
    (h : DevExt.BatteryTag ≠ BATTERY_TAG_INVALID) :
    (Request.next DevExt r).BatteryTag ≠ BATTERY_TAG_INVALID := by
  by_cases hr : r = Request.PrepareHardware
  · subst hr
    exact UpdateTag_tag_ne_invalid DevExt
  · rw [Request.next_eq DevExt r hr]
    exact h

theorem runRequests_tag_ne_invalid (rs : List Request) (DevExt : SM5714_BATTERY_FDO_DATA)
    (h : DevExt.BatteryTag ≠ BATTERY_TAG_INVALID) :
    (runRequests DevExt rs).BatteryTag ≠ BATTERY_TAG_INVALID := by
  induction rs generalizing DevExt with
  | nil => exact h
  | cons r rs ih => exact ih _ (Request.next_tag_ne_invalid DevExt r h)

theorem runRequests_append (rs ss : List Request) (DevExt : SM5714_BATTERY_FDO_DATA) :
    runRequests DevExt (rs ++ ss) = runRequests (runRequests DevExt rs) ss := by
  induction rs generalizing DevExt with
  | nil => rfl
  | cons r rs ih => exact ih _

/-! ## The static-information switch -/

theorem SpbWriteRead_status (I2CContext : SPB_CONTEXT) (Command : SpbCommand) (ReadBuffer : Nat) :
    (SpbWriteRead I2CContext Command ReadBuffer).1 = (I2CContext Command).Status := by
  unfold SpbWriteRead
  split <;> rfl

theorem QueryInformationString_UniqueID :
    QueryInformationString ['S'.toNat, 'M'.toNat, '5'.toNat, '7'.toNat, '1'.toNat, '4'.toNat,
      'F'.toNat, 'G'.toNat] =
    { Status := STATUS_SUCCESS, ReturnBuffer := some (WCHAR_bytes ([0x53, 0x4D, 0x35, 0x37, 0x31, 0x34, 0x46, 0x47] ++ List.replicate 120 0)), ReturnBufferLength := 18, Exchanges := [] } := by
  rfl

theorem QueryInformationString_DeviceName :
    QueryInformationString [0x53, 0x4D, 0x35, 0x37, 0x31, 0x34] =
    { Status := STATUS_SUCCESS, ReturnBuffer := some (WCHAR_bytes ([0x53, 0x4D, 0x35, 0x37, 0x31, 0x34] ++ List.replicate 122 0)), ReturnBufferLength := 14, Exchanges := [] } := by
  rfl

theorem QueryInformationString_ManufactureName :
    QueryInformationString [0x53, 0x53] =
    { Status := STATUS_SUCCESS, ReturnBuffer := some (WCHAR_bytes ([0x53, 0x53] ++ List.replicate 126 0)), ReturnBufferLength := 6, Exchanges := [] } := by
  rfl

theorem QueryInformationString_SerialNumber :
    QueryInformationString ((Nat.toDigits 10 5714).map Char.toNat) =
    { Status := STATUS_SUCCESS, ReturnBuffer := some (WCHAR_bytes ([0x35, 0x37, 0x31, 0x34] ++ List.replicate 124 0)), ReturnBufferLength := 10, Exchanges := [] } := by
  rfl
/-- What the switch of the static-information query leaves in `Status`. -/
theorem QueryInformationSwitch_status (I2CContext : SPB_CONTEXT) (Level : Nat) :
    (QueryInformationSwitch I2CContext Level).Status = STATUS_SUCCESS ∨
    (QueryInformationSwitch I2CContext Level).Status = STATUS_INVALID_PARAMETER ∨
    (Level = BatteryInformation ∧
      (QueryInformationSwitch I2CContext Level).Status = (I2CContext SpbCommand.write_cycle).Status ∧
      (QueryInformationSwitch I2CContext Level).Exchanges = [SpbCommand.write_cycle]) := by
  unfold QueryInformationSwitch
  split
  · rename_i h
    simp only [SM5714BatteryQueryBatteryInformation]
    have hs := SpbWriteRead_status I2CContext SpbCommand.write_cycle 0
    generalize SpbWriteRead I2CContext SpbCommand.write_cycle 0 = p at hs
    obtain ⟨s, w⟩ := p
    simp only at hs
    subst hs
    by_cases hn : NT_SUCCESS (I2CContext SpbCommand.write_cycle).Status = true
    · simp [hn]
    · simp [hn, h]
  · split
    · rw [QueryInformationString_UniqueID]; exact Or.inl rfl
    · split
      · rw [QueryInformationString_ManufactureName]; exact Or.inl rfl
      · split
        · rw [QueryInformationString_DeviceName]; exact Or.inl rfl
        · split
          · rw [QueryInformationString_SerialNumber]; exact Or.inl rfl
          · split
            · exact Or.inl rfl
            · split
              · exact Or.inl rfl
              · split
                · exact Or.inl rfl
                · exact Or.inr (Or.inl rfl)
/-- With the current tag, STATUS_NO_SUCH_DEVICE can only be the status of the cycle-count
exchange. -/
theorem QueryInformation_no_such_device (DevExt : SM5714_BATTERY_FDO_DATA)
    (I2CContext : SPB_CONTEXT) (Level : Nat) (AtRate : Int) (Buffer : Option (List Nat))
    (BufferLength ReturnedLength : Nat)
    (h : (SM5714BatteryQueryInformation DevExt I2CContext DevExt.BatteryTag Level AtRate Buffer
      BufferLength ReturnedLength).Status = STATUS_NO_SUCH_DEVICE) :
    Level = BatteryInformation ∧
    (I2CContext SpbCommand.write_cycle).Status = STATUS_NO_SUCH_DEVICE ∧
    (SM5714BatteryQueryInformation DevExt I2CContext DevExt.BatteryTag Level AtRate Buffer
      BufferLength ReturnedLength).Exchanges = [SpbCommand.write_cycle] := by
  have hsw := QueryInformationSwitch_status I2CContext Level
  simp only [SM5714BatteryQueryInformation, ne_eq, not_true_eq_false, if_false] at h ⊢
  generalize QueryInformationSwitch I2CContext Level = l at hsw h ⊢
  obtain ⟨st, rb, len, ex⟩ := l
  simp only at hsw h ⊢
  rcases hsw with hs | hs | ⟨hl, hs, he⟩
  · subst hs
    exfalso
    revert h
    simp only [NT_SUCCESS, STATUS_SUCCESS, STATUS_NO_SUCH_DEVICE, STATUS_BUFFER_TOO_SMALL]
    repeat' split
    all_goals simp
  · subst hs
    exfalso
    revert h
    simp [NT_SUCCESS, STATUS_INVALID_PARAMETER, STATUS_NO_SUCH_DEVICE]
  · subst hs he
    refine ⟨hl, ?_, ?_⟩
    · revert h
      repeat' split
      all_goals simp_all [NT_SUCCESS, STATUS_NO_SUCH_DEVICE, STATUS_BUFFER_TOO_SMALL]
    · repeat' split
      all_goals rfl

/-! ## The tag gate -/

/-- C1: a request presenting a tag different from the current one gets STATUS_NO_SUCH_DEVICE
from query-information (any level, buffer and length), query-status and set-information (any
level and payload); the whole result is fixed before the bus is consulted, so it is the same
for every behaviour of the hardware, no exchange is issued and the caller's outputs are left as
they were. A request presenting the current tag is not rejected by the gate: query-status and
set-information never return STATUS_NO_SUCH_DEVICE, and query-information returns it only as
the status of a failed cycle-count exchange, which it has then issued. -/
theorem C1_tag_gate (DevExt : SM5714_BATTERY_FDO_DATA) (BatteryTag : Nat) :
    (BatteryTag ≠ DevExt.BatteryTag →
      (∀ (I2CContext : SPB_CONTEXT) (Level : Nat) (AtRate : Int) (Buffer : Option (List Nat))
          (BufferLength ReturnedLength : Nat),
        SM5714BatteryQueryInformation DevExt I2CContext BatteryTag Level AtRate Buffer
            BufferLength ReturnedLength =
          { Status := STATUS_NO_SUCH_DEVICE, Buffer := Buffer, ReturnedLength := ReturnedLength,
            Exchanges := [], DevExt := DevExt }) ∧
      (∀ (I2CContext : SPB_CONTEXT) (BatteryStatus : BATTERY_STATUS),
        SM5714BatteryQueryStatus DevExt I2CContext BatteryTag BatteryStatus =
          { Status := STATUS_NO_SUCH_DEVICE, BatteryStatus := BatteryStatus, Exchanges := [],
            DevExt := DevExt }) ∧
      (∀ (Level : Nat) (Buffer : Option (List Nat)),
        SM5714BatterySetInformation DevExt BatteryTag Level Buffer =
          { Status := STATUS_NO_SUCH_DEVICE, Exchanges := [], DevExt := DevExt })) ∧
    (BatteryTag = DevExt.BatteryTag →
      (∀ (I2CContext : SPB_CONTEXT) (Level : Nat) (AtRate : Int) (Buffer : Option (List Nat))
          (BufferLength ReturnedLength : Nat),
        (SM5714BatteryQueryInformation DevExt I2CContext BatteryTag Level AtRate Buffer
            BufferLength ReturnedLength).Status = STATUS_NO_SUCH_DEVICE →
          Level = BatteryInformation ∧
          (I2CContext SpbCommand.write_cycle).Status = STATUS_NO_SUCH_DEVICE ∧
          (SM5714BatteryQueryInformation DevExt I2CContext BatteryTag Level AtRate Buffer
            BufferLength ReturnedLength).Exchanges = [SpbCommand.write_cycle]) ∧
      (∀ (I2CContext : SPB_CONTEXT) (BatteryStatus : BATTERY_STATUS),
        (SM5714BatteryQueryStatus DevExt I2CContext BatteryTag BatteryStatus).Status ≠
          STATUS_NO_SUCH_DEVICE) ∧
      (∀ (Level : Nat) (Buffer : Option (List Nat)),
        (SM5714BatterySetInformation DevExt BatteryTag Level Buffer).Status ≠
          STATUS_NO_SUCH_DEVICE)) := by
  refine ⟨fun hne => ⟨?_, ?_, ?_⟩, fun heq => ⟨?_, ?_, ?_⟩⟩
  · intros
    simp only [SM5714BatteryQueryInformation, hne, ne_eq, not_false_eq_true, if_true]
  · intros
    simp only [SM5714BatteryQueryStatus, hne, ne_eq, not_false_eq_true, if_true]
  · intros
    simp only [SM5714BatterySetInformation, hne, ne_eq, not_false_eq_true, if_true]
  · subst heq
    intro I2CContext Level AtRate Buffer BufferLength ReturnedLength h
    exact QueryInformation_no_such_device DevExt I2CContext Level AtRate Buffer BufferLength
      ReturnedLength h
  · subst heq
    intro I2CContext BatteryStatus
    simp [SM5714BatteryQueryStatus, STATUS_SUCCESS, STATUS_NO_SUCH_DEVICE]
  · subst heq
    intro Level Buffer
    simp only [SM5714BatterySetInformation, ne_eq, not_true_eq_false, if_false]
    repeat' split
    all_goals simp [STATUS_SUCCESS, STATUS_NO_SUCH_DEVICE, STATUS_INVALID_PARAMETER_4, STATUS_NOT_SUPPORTED]

/-- C1, at a concrete input: the instance holds tag 7 and the request presents tag 3. -/
theorem C1_tag_gate_witness :
    (3 : Nat) ≠ (SM5714_BATTERY_FDO_DATA.mk 7).BatteryTag ∧
    SM5714BatteryQueryInformation (SM5714_BATTERY_FDO_DATA.mk 7)
        (fun _ => { Status := STATUS_SUCCESS, Data := some 0x1234 }) 3 BatteryTemperature 0
        (some [1, 2, 3, 4]) 4 99 =
      { Status := STATUS_NO_SUCH_DEVICE, Buffer := some [1, 2, 3, 4], ReturnedLength := 99,
        Exchanges := [], DevExt := SM5714_BATTERY_FDO_DATA.mk 7 } ∧
    (SM5714BatteryQueryStatus (SM5714_BATTERY_FDO_DATA.mk 7)
        (fun _ => { Status := STATUS_SUCCESS, Data := some 0x1234 }) 7
        { PowerState := 0, Capacity := 0, Voltage := 0, Rate := 0 }).Status ≠
      STATUS_NO_SUCH_DEVICE :=
  ⟨by decide,
    ((C1_tag_gate (SM5714_BATTERY_FDO_DATA.mk 7) 3).1 (by decide)).1 _ _ _ _ _ _,
    ((C1_tag_gate (SM5714_BATTERY_FDO_DATA.mk 7) 7).2 rfl).2.1 _ _⟩

/-- C2: whatever the tag was (the reserved value and 0xFFFFFFFF, where the increment wraps,
included), the tag after one update is not BATTERY_TAG_INVALID; and after any sequence of
calls into the instance in which the hardware-attach event (the only caller of the update)
occurs at least once, the current tag is not BATTERY_TAG_INVALID. -/
theorem C2_tag_never_invalid :
    (∀ DevExt : SM5714_BATTERY_FDO_DATA,
      (SM5714BatteryUpdateTag DevExt).BatteryTag ≠ BATTERY_TAG_INVALID) ∧
    (SM5714BatteryUpdateTag (SM5714_BATTERY_FDO_DATA.mk BATTERY_TAG_INVALID)).BatteryTag = 1 ∧
    (SM5714BatteryUpdateTag (SM5714_BATTERY_FDO_DATA.mk 0xFFFFFFFF)).BatteryTag = 1 ∧
    (∀ (DevExt : SM5714_BATTERY_FDO_DATA) (n : Nat),
      (UpdateTagTimes (n + 1) DevExt).BatteryTag ≠ BATTERY_TAG_INVALID) ∧
    (∀ (DevExt : SM5714_BATTERY_FDO_DATA) (before after : List Request),
      (runRequests DevExt (before ++ Request.PrepareHardware :: after)).BatteryTag ≠
        BATTERY_TAG_INVALID) := by
  refine ⟨UpdateTag_tag_ne_invalid, by decide, by decide, ?_, ?_⟩
  · intro DevExt n
    rw [UpdateTagTimes_succ]
    exact UpdateTag_tag_ne_invalid _
  · intro DevExt before after
    rw [runRequests_append]
    exact runRequests_tag_ne_invalid after _ (UpdateTag_tag_ne_invalid _)

/-- C3: for a 32-bit tag t, one update (also through the hardware-attach event) gives
t + 1 modulo 2^32 when that is not the reserved value and t + 2 modulo 2^32 otherwise; the new
tag differs from t, so a query or directive presenting t right after the update gets
STATUS_NO_SUCH_DEVICE. -/
theorem C3_update_tag_step (DevExt : SM5714_BATTERY_FDO_DATA)
    (h32 : DevExt.BatteryTag < 4294967296) :
    (SM5714BatteryUpdateTag DevExt).BatteryTag =
      (if (DevExt.BatteryTag + 1) % 4294967296 ≠ BATTERY_TAG_INVALID then
        (DevExt.BatteryTag + 1) % 4294967296
      else
        (DevExt.BatteryTag + 2) % 4294967296) ∧
    SM5714BatteryPrepareHardware DevExt = SM5714BatteryUpdateTag DevExt ∧
    (SM5714BatteryUpdateTag DevExt).BatteryTag ≠ DevExt.BatteryTag ∧
    (∀ (I2CContext : SPB_CONTEXT) (Level : Nat) (AtRate : Int) (Buffer : Option (List Nat))
        (BufferLength ReturnedLength : Nat),
      (SM5714BatteryQueryInformation (SM5714BatteryUpdateTag DevExt) I2CContext
        DevExt.BatteryTag Level AtRate Buffer BufferLength ReturnedLength).Status =
          STATUS_NO_SUCH_DEVICE) ∧
    (∀ (I2CContext : SPB_CONTEXT) (BatteryStatus : BATTERY_STATUS),
      (SM5714BatteryQueryStatus (SM5714BatteryUpdateTag DevExt) I2CContext DevExt.BatteryTag
        BatteryStatus).Status = STATUS_NO_SUCH_DEVICE) ∧
    (∀ (Level : Nat) (Buffer : Option (List Nat)),
      (SM5714BatterySetInformation (SM5714BatteryUpdateTag DevExt) DevExt.BatteryTag Level
        Buffer).Status = STATUS_NO_SUCH_DEVICE) ∧
    (∀ BatteryNotify : BATTERY_NOTIFY,
      (SM5714BatterySetStatusNotify (SM5714BatteryUpdateTag DevExt) DevExt.BatteryTag
        BatteryNotify).Status = STATUS_NO_SUCH_DEVICE) := by
  have hne : DevExt.BatteryTag ≠ (SM5714BatteryUpdateTag DevExt).BatteryTag := by
    rw [UpdateTag_tag DevExt h32]
    omega
  refine ⟨?_, rfl, fun h => hne h.symm, ?_, ?_, ?_, ?_⟩
  · rw [UpdateTag_tag DevExt h32]
    unfold BATTERY_TAG_INVALID
    split <;> omega
  · intros
    simp only [SM5714BatteryQueryInformation, hne, ne_eq, not_false_eq_true, if_true]
  · intros
    simp only [SM5714BatteryQueryStatus, hne, ne_eq, not_false_eq_true, if_true]
  · intros
    simp only [SM5714BatterySetInformation, hne, ne_eq, not_false_eq_true, if_true]
  · intros
    simp only [SM5714BatterySetStatusNotify, hne, ne_eq, not_false_eq_true, if_true]

/-- C3, at the tag 0xFFFFFFFF, where the first increment gives the reserved value. -/
theorem C3_update_tag_step_witness :
    (SM5714_BATTERY_FDO_DATA.mk 0xFFFFFFFF).BatteryTag < 4294967296 ∧
    (SM5714BatteryUpdateTag (SM5714_BATTERY_FDO_DATA.mk 0xFFFFFFFF)).BatteryTag =
      (0xFFFFFFFF + 2) % 4294967296 ∧
    (SM5714BatteryUpdateTag (SM5714_BATTERY_FDO_DATA.mk 0xFFFFFFFF)).BatteryTag ≠ 0xFFFFFFFF :=
  ⟨by decide,
    (C3_update_tag_step (SM5714_BATTERY_FDO_DATA.mk 0xFFFFFFFF) (by decide)).1,
    (C3_update_tag_step (SM5714_BATTERY_FDO_DATA.mk 0xFFFFFFFF) (by decide)).2.2.1⟩

theorem UpdateTagTimes_tag_lt (k : Nat) (DevExt : SM5714_BATTERY_FDO_DATA)
    (h32 : DevExt.BatteryTag < 4294967296) :
    (UpdateTagTimes k DevExt).BatteryTag < 4294967296 := by
  cases k with
  | zero => exact h32
  | succ n =>
    rw [UpdateTagTimes_tag n DevExt h32]
    omega

theorem QueryStatus_status_current (DevExt : SM5714_BATTERY_FDO_DATA) (I2CContext : SPB_CONTEXT)
    (BatteryTag : Nat) (BatteryStatus : BATTERY_STATUS) (h : BatteryTag = DevExt.BatteryTag) :
    (SM5714BatteryQueryStatus DevExt I2CContext BatteryTag BatteryStatus).Status =
      STATUS_SUCCESS := by
  simp [SM5714BatteryQueryStatus, h]

/-- C4 as stated fails on the code. One update at tag 0xFFFFFFFF gives 1, which is not greater;
and 4294967295 updates starting at tag 1 end at tag 1 again, so that a status query presenting
the tag from before the sequence passes the gate. -/
theorem C4_counterexample :
    (SM5714BatteryUpdateTag (SM5714_BATTERY_FDO_DATA.mk 0xFFFFFFFF)).BatteryTag = 1 ∧
    ¬ ((SM5714_BATTERY_FDO_DATA.mk 0xFFFFFFFF).BatteryTag <
      (SM5714BatteryUpdateTag (SM5714_BATTERY_FDO_DATA.mk 0xFFFFFFFF)).BatteryTag) ∧
    (UpdateTagTimes 4294967295 (SM5714_BATTERY_FDO_DATA.mk 1)).BatteryTag = 1 ∧
    (SM5714BatteryQueryStatus (UpdateTagTimes 4294967295 (SM5714_BATTERY_FDO_DATA.mk 1))
      (fun _ => { Status := STATUS_SUCCESS, Data := some 0 }) 1
      { PowerState := 0, Capacity := 0, Voltage := 0, Rate := 0 }).Status = STATUS_SUCCESS := by
  have h : (UpdateTagTimes (4294967294 + 1) (SM5714_BATTERY_FDO_DATA.mk 1)).BatteryTag = 1 :=
    UpdateTagTimes_tag 4294967294 (SM5714_BATTERY_FDO_DATA.mk 1) (by decide)
  exact ⟨by decide, by decide, h, QueryStatus_status_current _ _ _ _ h.symm⟩

/-- C4, amended: for a 32-bit starting tag and a sequence of n ≥ 1 updates, a call made at a tag
other than 0xFFFFFFFF gives the tag plus one, which is greater; a call made at 0xFFFFFFFF gives
1 (the increment wraps to the reserved value 0, which is skipped); and when n is less than
2^32 - 1 the final tag differs from the starting one, so that a query or directive presenting
the tag from before the sequence gets STATUS_NO_SUCH_DEVICE. -/
theorem C4_update_tag_sequence (DevExt : SM5714_BATTERY_FDO_DATA) (n : Nat)
    (h32 : DevExt.BatteryTag < 4294967296) (hn : 0 < n) :
    (∀ k, k < n → (UpdateTagTimes k DevExt).BatteryTag ≠ 0xFFFFFFFF →
      (UpdateTagTimes (k + 1) DevExt).BatteryTag = (UpdateTagTimes k DevExt).BatteryTag + 1 ∧
      (UpdateTagTimes k DevExt).BatteryTag < (UpdateTagTimes (k + 1) DevExt).BatteryTag) ∧
    (∀ k, k < n → (UpdateTagTimes k DevExt).BatteryTag = 0xFFFFFFFF →
      (UpdateTagTimes (k + 1) DevExt).BatteryTag = 1) ∧
    (n < 4294967295 →
      (UpdateTagTimes n DevExt).BatteryTag ≠ DevExt.BatteryTag ∧
      (∀ (I2CContext : SPB_CONTEXT) (BatteryStatus : BATTERY_STATUS),
        (SM5714BatteryQueryStatus (UpdateTagTimes n DevExt) I2CContext DevExt.BatteryTag
          BatteryStatus).Status = STATUS_NO_SUCH_DEVICE) ∧
      (∀ (I2CContext : SPB_CONTEXT) (Level : Nat) (AtRate : Int) (Buffer : Option (List Nat))
          (BufferLength ReturnedLength : Nat),
        (SM5714BatteryQueryInformation (UpdateTagTimes n DevExt) I2CContext DevExt.BatteryTag
          Level AtRate Buffer BufferLength ReturnedLength).Status = STATUS_NO_SUCH_DEVICE) ∧
      (∀ (Level : Nat) (Buffer : Option (List Nat)),
        (SM5714BatterySetInformation (UpdateTagTimes n DevExt) DevExt.BatteryTag Level
          Buffer).Status = STATUS_NO_SUCH_DEVICE)) := by
  refine ⟨?_, ?_, ?_⟩
  · intro k _ hk
    have hlt := UpdateTagTimes_tag_lt k DevExt h32
    rw [UpdateTagTimes_succ, UpdateTag_tag _ hlt]
    omega
  · intro k _ hk
    have hlt := UpdateTagTimes_tag_lt k DevExt h32
    rw [UpdateTagTimes_succ, UpdateTag_tag _ hlt]
    omega
  · intro hlt
    have hne : DevExt.BatteryTag ≠ (UpdateTagTimes n DevExt).BatteryTag := by
      obtain ⟨m, rfl⟩ : ∃ m, n = m + 1 := ⟨n - 1, by omega⟩
      rw [UpdateTagTimes_tag m DevExt h32]
      omega
    refine ⟨fun h => hne h.symm, ?_, ?_, ?_⟩
    · intros
      simp only [SM5714BatteryQueryStatus, hne, ne_eq, not_false_eq_true, if_true]
    · intros
      simp only [SM5714BatteryQueryInformation, hne, ne_eq, not_false_eq_true, if_true]
    · intros
      simp only [SM5714BatterySetInformation, hne, ne_eq, not_false_eq_true, if_true]

/-- C4 amended, at the starting tag 0xFFFFFFFE and three updates: 0xFFFFFFFF, 1, 2. -/
theorem C4_update_tag_sequence_witness :
    (SM5714_BATTERY_FDO_DATA.mk 0xFFFFFFFE).BatteryTag < 4294967296 ∧ 0 < 3 ∧
    (UpdateTagTimes 3 (SM5714_BATTERY_FDO_DATA.mk 0xFFFFFFFE)).BatteryTag ≠ 0xFFFFFFFE ∧
    (UpdateTagTimes 1 (SM5714_BATTERY_FDO_DATA.mk 0xFFFFFFFE)).BatteryTag = 0xFFFFFFFF ∧
    (UpdateTagTimes 2 (SM5714_BATTERY_FDO_DATA.mk 0xFFFFFFFE)).BatteryTag = 1 :=
  ⟨by decide, by decide,
    ((C4_update_tag_sequence (SM5714_BATTERY_FDO_DATA.mk 0xFFFFFFFE) 3 (by decide)
      (by decide)).2.2 (by decide)).1,
    by decide,
    (C4_update_tag_sequence (SM5714_BATTERY_FDO_DATA.mk 0xFFFFFFFE) 3 (by decide)
      (by decide)).2.1 1 (by decide) (by decide)⟩

/-! ## The telemetry decoder -/

/-- The current computed from a 16-bit raw word, in plain arithmetic. -/
theorem QueryStatusCurrent_eq (rawCurr : Nat) :
    QueryStatusCurrent rawCurr =
      if rawCurr / 32768 % 2 = 1 then
        -((rawCurr / 2048 % 4 * 1000 + rawCurr % 2048 * 1000 / 2048 : Nat) : Int)
      else
        ((rawCurr / 2048 % 4 * 1000 + rawCurr % 2048 * 1000 / 2048 : Nat) : Int) := by
  unfold QueryStatusCurrent
  simp only [and_0x1800, and_0x07ff, and_0x8000, Nat.shiftRight_eq_div_pow]
  have e1 : rawCurr / 2048 % 4 * 2048 / 2 ^ 11 = rawCurr / 2048 % 4 := by omega
  rw [e1]
  have b1 : rawCurr / 2048 % 4 * 1000 ≤ 3000 := by omega
  have b2 : rawCurr % 2048 * 1000 / 2048 ≤ 999 := by omega
  generalize rawCurr / 2048 % 4 * 1000 = a at b1 ⊢
  generalize rawCurr % 2048 * 1000 / 2048 = f at b2 ⊢
  have l1 : LONG_of (a : Int) = a := LONG_of_eq_self _ (by omega) (by omega)
  have l2 : LONG_of ((a : Int) + f) = a + f := LONG_of_eq_self _ (by omega) (by omega)
  have l3 : LONG_of (((a : Int) + f) * -1) = -(a + f) := by
    rw [LONG_of_eq_self _ (by omega) (by omega)]
    ring
  rw [l1, l2, l3]
  by_cases hs : rawCurr / 32768 % 2 = 1
  · have hne : rawCurr / 32768 % 2 * 32768 ≠ 0 := by omega
    rw [if_pos hne, if_pos hs]
    push_cast
    ring
  · have hz : ¬ (rawCurr / 32768 % 2 * 32768 ≠ 0) := by omega
    rw [if_neg hz, if_neg hs]
    push_cast
    ring

theorem SpbWriteRead_data_some (I2CContext : SPB_CONTEXT) (Command : SpbCommand)
    (ReadBuffer word : Nat) (h : (I2CContext Command).Data = some word) :
    (SpbWriteRead I2CContext Command ReadBuffer).2 = word % 65536 := by
  unfold SpbWriteRead
  rw [h]

theorem SpbWriteRead_data_none (I2CContext : SPB_CONTEXT) (Command : SpbCommand)
    (ReadBuffer : Nat) (h : (I2CContext Command).Data = none) :
    (SpbWriteRead I2CContext Command ReadBuffer).2 = ReadBuffer := by
  unfold SpbWriteRead
  rw [h]

/-- The status query with the current tag, in terms of the three words read. -/
theorem QueryStatus_current (DevExt : SM5714_BATTERY_FDO_DATA) (I2CContext : SPB_CONTEXT)
    (BatteryStatus : BATTERY_STATUS) :
    SM5714BatteryQueryStatus DevExt I2CContext DevExt.BatteryTag BatteryStatus =
      { Status := STATUS_SUCCESS,
        BatteryStatus :=
          { PowerState :=
              if QueryStatusCurrent (SpbWriteRead I2CContext SpbCommand.write_current 0).2 ≥ 30
              then BATTERY_POWER_ON_LINE else BATTERY_DISCHARGING,
            Capacity := ULONG_of (ULONG_of (FIXED_POINT_8_8_EXTEND_TO_INT
              ((SpbWriteRead I2CContext SpbCommand.write_capacity 0).2 % 65536) 10 : Nat) *
                19228 : Nat) / 1000,
            Voltage := QueryStatusVoltage (SpbWriteRead I2CContext SpbCommand.write_ocv 0).2,
            Rate := LONG_of (Int.tdiv (LONG_of
              (LONG_of (QueryStatusCurrent (SpbWriteRead I2CContext SpbCommand.write_current 0).2) *
                LONG_of (QueryStatusVoltage (SpbWriteRead I2CContext SpbCommand.write_ocv 0).2)))
              1000) },
        Exchanges := [SpbCommand.write_capacity, SpbCommand.write_ocv, SpbCommand.write_current],
        DevExt := DevExt } := by
  simp only [SM5714BatteryQueryStatus, ne_eq, not_true_eq_false, if_false]
  split <;> rfl

/-- C5: for every 16-bit raw current word the current decoded by the status query is
bits[12:11] * 1000 + bits[10:0] * 1000 div 2048 mA, negated exactly when bit 15 is set; two
words that agree on bit 15 and on bits 12 to 0 (they differ at most in bits 13 and 14) decode
to the same current; and the power state the query reports is the classification of that
value. -/
theorem C5_current_decode (rawCurr : Nat) (h16 : rawCurr < 65536) :
    QueryStatusCurrent rawCurr =
      (if bits rawCurr 15 15 = 1 then
        -((bits rawCurr 12 11 * 1000 + bits rawCurr 10 0 * 1000 / 2048 : Nat) : Int)
      else
        ((bits rawCurr 12 11 * 1000 + bits rawCurr 10 0 * 1000 / 2048 : Nat) : Int)) ∧
    (∀ other : Nat, other < 65536 → bits other 15 15 = bits rawCurr 15 15 →
      bits other 12 0 = bits rawCurr 12 0 →
      QueryStatusCurrent other = QueryStatusCurrent rawCurr) ∧
    (∀ (DevExt : SM5714_BATTERY_FDO_DATA) (I2CContext : SPB_CONTEXT)
        (BatteryStatus : BATTERY_STATUS),
      (I2CContext SpbCommand.write_current).Data = some rawCurr →
      (SM5714BatteryQueryStatus DevExt I2CContext DevExt.BatteryTag
        BatteryStatus).BatteryStatus.PowerState =
        if (if bits rawCurr 15 15 = 1 then
            -((bits rawCurr 12 11 * 1000 + bits rawCurr 10 0 * 1000 / 2048 : Nat) : Int)
          else
            ((bits rawCurr 12 11 * 1000 + bits rawCurr 10 0 * 1000 / 2048 : Nat) : Int)) ≥ 30
        then BATTERY_POWER_ON_LINE else BATTERY_DISCHARGING) := by
  have hb : ∀ r : Nat, QueryStatusCurrent r =
      (if bits r 15 15 = 1 then
        -((bits r 12 11 * 1000 + bits r 10 0 * 1000 / 2048 : Nat) : Int)
      else
        ((bits r 12 11 * 1000 + bits r 10 0 * 1000 / 2048 : Nat) : Int)) := by
    intro r
    rw [QueryStatusCurrent_eq]
    simp [bits]
  refine ⟨hb rawCurr, ?_, ?_⟩
  · intro other _ h15 h12
    rw [QueryStatusCurrent_eq, QueryStatusCurrent_eq]
    simp only [bits] at h15 h12
    norm_num at h15 h12
    have e1 : other / 32768 % 2 = rawCurr / 32768 % 2 := h15
    have e2 : other / 2048 % 4 = rawCurr / 2048 % 4 := by omega
    have e3 : other % 2048 = rawCurr % 2048 := by omega
    rw [e1, e2, e3]
  · intro DevExt I2CContext BatteryStatus hdata
    rw [QueryStatus_current, SpbWriteRead_data_some _ _ _ _ hdata, Nat.mod_eq_of_lt h16,
      hb rawCurr]

/-- C5, at the raw word 0x8667: sign bit set, magnitude bits giving 800 mA. -/
theorem C5_current_decode_witness :
    0x8667 < 65536 ∧ QueryStatusCurrent 0x8667 = -800 :=
  ⟨by decide, (C5_current_decode 0x8667 (by decide)).1.trans (by decide)⟩

/-- The voltage computed from a raw word, in plain arithmetic: the branch on a negative raw
word is never taken, the word being unsigned. -/
theorem QueryStatusVoltage_eq (rawOcv : Nat) :
    QueryStatusVoltage rawOcv = rawOcv / 2048 % 8 * 1000 + rawOcv % 2048 * 1000 / 2048 := by
  unfold QueryStatusVoltage
  rw [if_neg (by omega)]
  simp only [and_0x3800, and_0x07ff, Nat.shiftRight_eq_div_pow, ULONG_of_natCast]
  omega

/-- C6 as stated fails on the code: the raw word 0x4000 has its sign bit clear and
bits[14:11] = 8, so the stated formula gives 8000 mV, while the status query reports 0 mV. -/
theorem C6_counterexample :
    0x4000 < 65536 ∧ bits 0x4000 15 15 = 0 ∧
    bits 0x4000 14 11 * 1000 + bits 0x4000 10 0 * 1000 / 2048 = 8000 ∧
    (SM5714BatteryQueryStatus (SM5714_BATTERY_FDO_DATA.mk 1)
      (fun _ => { Status := STATUS_SUCCESS, Data := some 0x4000 }) 1
      { PowerState := 0, Capacity := 0, Voltage := 0, Rate := 0 }).BatteryStatus.Voltage = 0 := by
  decide

/-- C6, amended: for every 16-bit raw voltage word whose sign bit is clear, the voltage the
status query reports is bits[13:11] * 1000 + bits[10:0] * 1000 div 2048 mV, the integer field
being the three bits 13 down to 11 (mask 0x3800); bit 14 is not read. -/
theorem C6_voltage_decode (rawOcv : Nat) (h16 : rawOcv < 65536) (_hsign : bits rawOcv 15 15 = 0) :
    QueryStatusVoltage rawOcv = bits rawOcv 13 11 * 1000 + bits rawOcv 10 0 * 1000 / 2048 ∧
    (∀ (DevExt : SM5714_BATTERY_FDO_DATA) (I2CContext : SPB_CONTEXT)
        (BatteryStatus : BATTERY_STATUS),
      (I2CContext SpbCommand.write_ocv).Data = some rawOcv →
      (SM5714BatteryQueryStatus DevExt I2CContext DevExt.BatteryTag
        BatteryStatus).BatteryStatus.Voltage =
        bits rawOcv 13 11 * 1000 + bits rawOcv 10 0 * 1000 / 2048) := by
  have hb : QueryStatusVoltage rawOcv =
      bits rawOcv 13 11 * 1000 + bits rawOcv 10 0 * 1000 / 2048 := by
    rw [QueryStatusVoltage_eq]
    simp [bits]
  refine ⟨hb, ?_⟩
  intro DevExt I2CContext BatteryStatus hdata
  rw [QueryStatus_current, SpbWriteRead_data_some _ _ _ _ hdata, Nat.mod_eq_of_lt h16, hb]

/-- C6 amended, at the raw word 0x1400: 2500 mV. -/
theorem C6_voltage_decode_witness :
    0x1400 < 65536 ∧ bits 0x1400 15 15 = 0 ∧ QueryStatusVoltage 0x1400 = 2500 :=
  ⟨by decide, by decide, (C6_voltage_decode 0x1400 (by decide) (by decide)).1.trans (by decide)⟩

/-- The arithmetic of the temperature level on a negated magnitude that is not zero: the
conversion to `ULONG` comes before the division by ten. -/
theorem negated_magnitude_over_ten (a f : Nat) (b1 : a ≤ 1270) (b2 : f ≤ 9) (hmag : 0 < a + f) :
    LONG_of ((ULONG_of (LONG_of (LONG_of (LONG_of (a : Int) + (f : Int)) * -1)) / ULONG_of 10 : Nat) : Int) =
      (((4294967296 - (a + f)) / 10 : Nat) : Int) := by
  have l1 : LONG_of (a : Int) = a := LONG_of_eq_self _ (by omega) (by omega)
  have l2 : LONG_of ((a : Int) + f) = a + f := LONG_of_eq_self _ (by omega) (by omega)
  have l3 : LONG_of (((a : Int) + f) * -1) = -(a + f) := by
    rw [LONG_of_eq_self _ (by omega) (by omega)]
    ring
  have l4 : ULONG_of (-((a : Int) + f)) = 4294967296 - (a + f) := by
    unfold ULONG_of
    omega
  have l5 : ULONG_of 10 = 10 := by
    unfold ULONG_of
    omega
  rw [l1, l2, l3, l4, l5]
  exact LONG_of_eq_self _ (by omega) (by omega)

/-- The temperature computed from a raw word with the sign bit set and a magnitude that is not
zero: a large positive number. -/
theorem QueryInformationTemperature_sign_set (rawTemp : Nat)
    (hsign : bits rawTemp 15 15 = 1) (hmag : 0 < TemperatureMagnitude rawTemp) :
    QueryInformationTemperature rawTemp =
      ((4294967296 - TemperatureMagnitude rawTemp) / 10 : Nat) ∧
    0 < QueryInformationTemperature rawTemp := by
  have hT : TemperatureMagnitude rawTemp =
      rawTemp / 256 % 128 * 10 + rawTemp / 16 % 16 * 16 * 10 / 256 := by
    norm_num [TemperatureMagnitude, bits]
  have hs : rawTemp / 32768 % 2 = 1 := by
    simpa [bits] using hsign
  rw [hT] at hmag ⊢
  clear hT hsign
  unfold QueryInformationTemperature
  rw [if_neg (by omega)]
  simp only [and_0x7fff, and_0x00f0, and_0x8000, Nat.shiftRight_eq_div_pow]
  have hne : rawTemp / 32768 % 2 * 32768 ≠ 0 := by omega
  rw [if_pos hne]
  have e1 : rawTemp % 32768 / 2 ^ 8 = rawTemp / 256 % 128 := by omega
  rw [e1]
  have b1 : rawTemp / 256 % 128 * 10 ≤ 1270 := by omega
  have b2 : rawTemp / 16 % 16 * 16 * 10 / 256 ≤ 9 := by omega
  rw [negated_magnitude_over_ten _ _ b1 b2 hmag]
  refine ⟨rfl, ?_⟩
  clear hs hne e1 hmag
  omega

/-- C7, the code at the failing input: with the current tag, level temperature, a four-byte
buffer and the raw word 0x8A00 (sign bit set, magnitude 100 tenths, for which the claim gives
-10), the query succeeds and the value in the buffer, read as a signed 32-bit integer, is
429496719, which is positive. The raw word 0 gives 0. -/
theorem C7_temperature_failing_input :
    bits 0x8A00 15 15 = 1 ∧ TemperatureMagnitude 0x8A00 / 10 = 10 ∧
    (SM5714BatteryQueryInformation (SM5714_BATTERY_FDO_DATA.mk 1)
      (fun _ => { Status := STATUS_SUCCESS, Data := some 0x8A00 }) 1 BatteryTemperature 0
      (some [0, 0, 0, 0]) 4 0).Status = STATUS_SUCCESS ∧
    (SM5714BatteryQueryInformation (SM5714_BATTERY_FDO_DATA.mk 1)
      (fun _ => { Status := STATUS_SUCCESS, Data := some 0x8A00 }) 1 BatteryTemperature 0
      (some [0, 0, 0, 0]) 4 0).Buffer.map LONG_at = some 429496719 ∧
    (SM5714BatteryQueryInformation (SM5714_BATTERY_FDO_DATA.mk 1)
      (fun _ => { Status := STATUS_SUCCESS, Data := some 0 }) 1 BatteryTemperature 0
      (some [7, 7, 7, 7]) 4 0).Buffer.map LONG_at = some 0 := by
  decide

/-- C8: a status query presenting the current tag returns STATUS_SUCCESS whatever the outcome
of each of its three exchanges, and issues all three; when the exchange for the current
delivers no data (as a failed one does), the current stays at its initial 0 mA and the query
reports BATTERY_DISCHARGING and rate 0. -/
theorem C8_status_query_succeeds (DevExt : SM5714_BATTERY_FDO_DATA) (I2CContext : SPB_CONTEXT)
    (BatteryStatus : BATTERY_STATUS) :
    (SM5714BatteryQueryStatus DevExt I2CContext DevExt.BatteryTag BatteryStatus).Status =
      STATUS_SUCCESS ∧
    (SM5714BatteryQueryStatus DevExt I2CContext DevExt.BatteryTag BatteryStatus).Exchanges =
      [SpbCommand.write_capacity, SpbCommand.write_ocv, SpbCommand.write_current] ∧
    ((I2CContext SpbCommand.write_current).Data = none →
      QueryStatusCurrent (SpbWriteRead I2CContext SpbCommand.write_current 0).2 = 0 ∧
      (SM5714BatteryQueryStatus DevExt I2CContext DevExt.BatteryTag
        BatteryStatus).BatteryStatus.PowerState = BATTERY_DISCHARGING ∧
      (SM5714BatteryQueryStatus DevExt I2CContext DevExt.BatteryTag
        BatteryStatus).BatteryStatus.Rate = 0) := by
  rw [QueryStatus_current]
  refine ⟨rfl, rfl, ?_⟩
  intro hnone
  have hc : QueryStatusCurrent (SpbWriteRead I2CContext SpbCommand.write_current 0).2 = 0 := by
    rw [SpbWriteRead_data_none _ _ _ hnone]
    decide
  refine ⟨hc, ?_, ?_⟩
  · simp only [hc]
    decide
  · simp only [hc]
    have z : LONG_of 0 = 0 := by decide
    rw [z, Int.zero_mul, z, Int.zero_tdiv, z]

/-- C8, at a bus on which the state-of-charge and voltage exchanges succeed and the exchange
for the current fails with STATUS_IO_DEVICE_ERROR (0xC0000185) and delivers nothing. -/
theorem C8_status_query_succeeds_witness :
    (SM5714BatteryQueryStatus (SM5714_BATTERY_FDO_DATA.mk 1)
      (fun c => match c with
        | SpbCommand.write_current => { Status := 0xC0000185, Data := none }
        | _ => { Status := STATUS_SUCCESS, Data := some 0x1400 }) 1
      { PowerState := 7, Capacity := 7, Voltage := 7, Rate := 7 }).BatteryStatus.Rate = 0 :=
  ((C8_status_query_succeeds (SM5714_BATTERY_FDO_DATA.mk 1)
    (fun c => match c with
      | SpbCommand.write_current => { Status := 0xC0000185, Data := none }
      | _ => { Status := STATUS_SUCCESS, Data := some 0x1400 }) 
    { PowerState := 7, Capacity := 7, Voltage := 7, Rate := 7 }).2.2 rfl).2.2

/-! ## The static-information query -/

/-- The static-information query with the current tag and level device name, case by case. -/
theorem QueryInformation_DeviceName (DevExt : SM5714_BATTERY_FDO_DATA)
    (I2CContext : SPB_CONTEXT) (AtRate : Int) (Buffer : Option (List Nat))
    (BufferLength ReturnedLength : Nat) :
    SM5714BatteryQueryInformation DevExt I2CContext DevExt.BatteryTag BatteryDeviceName AtRate
        Buffer BufferLength ReturnedLength =
      match Buffer with
      | none =>
        { Status := STATUS_BUFFER_TOO_SMALL, Buffer := none, ReturnedLength := 14,
          Exchanges := [], DevExt := DevExt }
      | some Bytes =>
        if BufferLength < 14 then
          { Status := STATUS_BUFFER_TOO_SMALL, Buffer := some Bytes, ReturnedLength := 14,
            Exchanges := [], DevExt := DevExt }
        else
          { Status := STATUS_SUCCESS, Buffer := some (DeviceNameString ++ Bytes.drop 14),
            ReturnedLength := 14, Exchanges := [], DevExt := DevExt } := by
  have hsw : QueryInformationSwitch I2CContext BatteryDeviceName =
      QueryInformationString [0x53, 0x4D, 0x35, 0x37, 0x31, 0x34] := by
    simp [QueryInformationSwitch, BatteryDeviceName, BatteryInformation, BatteryUniqueID,
      BatteryManufactureName]
  have htake : (WCHAR_bytes ([0x53, 0x4D, 0x35, 0x37, 0x31, 0x34] ++ List.replicate 122 0)).take 14 =
      DeviceNameString := by
    rfl
  have hlen : ULONG_of ((14 : Nat) : Int) = 14 := by
    rw [ULONG_of_natCast]
  simp only [SM5714BatteryQueryInformation, ne_eq, not_true_eq_false, if_false, hsw,
    QueryInformationString_DeviceName]
  have hs : NT_SUCCESS STATUS_SUCCESS = true := by decide
  simp only [hs, if_true, hlen, memcpy, htake]
  cases Buffer with
  | none => rfl
  | some Bytes => rfl

/-- C9: with the current tag and level device name the query reports the required length 14,
the byte length of the UTF-16 string "SM5714" with its terminator, whatever the buffer; it
returns STATUS_BUFFER_TOO_SMALL, leaving the buffer as it was, exactly when the buffer is absent
or shorter than 14 bytes, and otherwise returns STATUS_SUCCESS with that string in the first 14
bytes of the buffer and the rest of the buffer as it was. No bus exchange is issued. -/
theorem C9_device_name_size_fill (DevExt : SM5714_BATTERY_FDO_DATA) (I2CContext : SPB_CONTEXT)
    (AtRate : Int) (Buffer : Option (List Nat)) (BufferLength ReturnedLength : Nat) :
    DeviceNameString.length = 14 ∧
    (SM5714BatteryQueryInformation DevExt I2CContext DevExt.BatteryTag BatteryDeviceName AtRate
      Buffer BufferLength ReturnedLength).ReturnedLength = 14 ∧
    (SM5714BatteryQueryInformation DevExt I2CContext DevExt.BatteryTag BatteryDeviceName AtRate
      Buffer BufferLength ReturnedLength).Exchanges = [] ∧
    ((SM5714BatteryQueryInformation DevExt I2CContext DevExt.BatteryTag BatteryDeviceName AtRate
      Buffer BufferLength ReturnedLength).Status = STATUS_BUFFER_TOO_SMALL ↔
        (Buffer = none ∨ BufferLength < 14)) ∧
    ((Buffer = none ∨ BufferLength < 14) →
      (SM5714BatteryQueryInformation DevExt I2CContext DevExt.BatteryTag BatteryDeviceName AtRate
        Buffer BufferLength ReturnedLength).Buffer = Buffer) ∧
    (∀ Bytes : List Nat, Buffer = some Bytes → 14 ≤ BufferLength →
      (SM5714BatteryQueryInformation DevExt I2CContext DevExt.BatteryTag BatteryDeviceName AtRate
        Buffer BufferLength ReturnedLength).Status = STATUS_SUCCESS ∧
      (SM5714BatteryQueryInformation DevExt I2CContext DevExt.BatteryTag BatteryDeviceName AtRate
        Buffer BufferLength ReturnedLength).Buffer = some (DeviceNameString ++ Bytes.drop 14)) := by
  rw [QueryInformation_DeviceName]
  have hne : STATUS_SUCCESS ≠ STATUS_BUFFER_TOO_SMALL := by decide
  cases Buffer with
  | none =>
    refine ⟨rfl, rfl, rfl, ?_, ?_, ?_⟩
    · simp
    · intro _
      rfl
    · intro Bytes h
      cases h
  | some Bytes =>
    by_cases hlt : BufferLength < 14
    · dsimp only
      rw [if_pos hlt]
      refine ⟨rfl, rfl, rfl, ?_, ?_, ?_⟩
      · simp [hlt]
      · intro _
        rfl
      · intro Bytes2 _ hge
        omega
    · dsimp only
      rw [if_neg hlt]
      refine ⟨rfl, rfl, rfl, ?_, ?_, ?_⟩
      · simp [hne, hlt]
      · intro h
        rcases h with h | h
        · cases h
        · exact absurd h hlt
      · intro Bytes2 h _
        cases h
        exact ⟨rfl, rfl⟩

/-- C9, the two phases at a concrete caller: a 4-byte buffer gets STATUS_BUFFER_TOO_SMALL, a
16-byte buffer gets the string. -/
theorem C9_device_name_size_fill_witness :
    (SM5714BatteryQueryInformation (SM5714_BATTERY_FDO_DATA.mk 1)
      (fun _ => { Status := STATUS_SUCCESS, Data := none }) 1 BatteryDeviceName 0
      (some [9, 9, 9, 9]) 4 0).Buffer = some [9, 9, 9, 9] ∧
    (SM5714BatteryQueryInformation (SM5714_BATTERY_FDO_DATA.mk 1)
      (fun _ => { Status := STATUS_SUCCESS, Data := none }) 1 BatteryDeviceName 0
      (some (List.replicate 16 9)) 16 0).Buffer =
        some (DeviceNameString ++ (List.replicate 16 9).drop 14) :=
  ⟨(C9_device_name_size_fill (SM5714_BATTERY_FDO_DATA.mk 1)
      (fun _ => { Status := STATUS_SUCCESS, Data := none }) 0 (some [9, 9, 9, 9]) 4 0).2.2.2.2.1
      (Or.inr (by decide)),
    ((C9_device_name_size_fill (SM5714_BATTERY_FDO_DATA.mk 1)
      (fun _ => { Status := STATUS_SUCCESS, Data := none }) 0 (some (List.replicate 16 9)) 16
      0).2.2.2.2.2 (List.replicate 16 9) rfl (by decide)).2⟩

/-- C10 as stated fails on the code: with the current tag, the level BatteryEstimatedTime, which
has no case in the switch, gets STATUS_INVALID_PARAMETER, not STATUS_INVALID_DEVICE_REQUEST. -/
theorem C10_counterexample :
    BatteryEstimatedTime ∉ [BatteryInformation, BatteryUniqueID, BatteryManufactureName,
      BatteryDeviceName, BatterySerialNumber, BatteryManufactureDate,
      BatteryGranularityInformation, BatteryTemperature] ∧
    (SM5714BatteryQueryInformation (SM5714_BATTERY_FDO_DATA.mk 1)
      (fun _ => { Status := STATUS_SUCCESS, Data := some 0 }) 1 BatteryEstimatedTime 0
      (some [9, 9, 9, 9]) 4 7).Status = STATUS_INVALID_PARAMETER ∧
    (SM5714BatteryQueryInformation (SM5714_BATTERY_FDO_DATA.mk 1)
      (fun _ => { Status := STATUS_SUCCESS, Data := some 0 }) 1 BatteryEstimatedTime 0
      (some [9, 9, 9, 9]) 4 7).Status ≠ STATUS_INVALID_DEVICE_REQUEST := by
  decide

/-- C10, amended: a static-information query that presents the current tag and asks for a level
outside the supported catalog fails with STATUS_INVALID_PARAMETER (the default case of the
switch overwrites the STATUS_INVALID_DEVICE_REQUEST set before it), reports returned length 0,
leaves the buffer as it was and issues no bus exchange. -/
theorem C10_unsupported_level (DevExt : SM5714_BATTERY_FDO_DATA) (I2CContext : SPB_CONTEXT)
    (Level : Nat) (AtRate : Int) (Buffer : Option (List Nat)) (BufferLength ReturnedLength : Nat)
    (hLevel : Level ∉ [BatteryInformation, BatteryUniqueID, BatteryManufactureName,
      BatteryDeviceName, BatterySerialNumber, BatteryManufactureDate,
      BatteryGranularityInformation, BatteryTemperature]) :
    SM5714BatteryQueryInformation DevExt I2CContext DevExt.BatteryTag Level AtRate Buffer
        BufferLength ReturnedLength =
      { Status := STATUS_INVALID_PARAMETER, Buffer := Buffer, ReturnedLength := 0,
        Exchanges := [], DevExt := DevExt } ∧
    STATUS_INVALID_PARAMETER ≠ STATUS_INVALID_DEVICE_REQUEST ∧
    NT_SUCCESS STATUS_INVALID_PARAMETER = false := by
  simp only [List.mem_cons, List.mem_singleton, List.not_mem_nil, or_false, not_or] at hLevel
  obtain ⟨h1, h2, h3, h4, h5, h6, h7, h8⟩ := hLevel
  have hsw : QueryInformationSwitch I2CContext Level =
      { Status := STATUS_INVALID_PARAMETER, ReturnBuffer := none, ReturnBufferLength := 0,
        Exchanges := [] } := by
    simp only [QueryInformationSwitch, h1, h2, h3, h4, h5, h6, h7, h8, if_false]
  have hf : NT_SUCCESS STATUS_INVALID_PARAMETER = false := by decide
  refine ⟨?_, by decide, hf⟩
  simp [SM5714BatteryQueryInformation, hsw, hf]

/-- C10 amended, at the level BatteryEstimatedTime. -/
theorem C10_unsupported_level_witness :
    (SM5714BatteryQueryInformation (SM5714_BATTERY_FDO_DATA.mk 1)
      (fun _ => { Status := STATUS_SUCCESS, Data := some 0 }) 1 BatteryEstimatedTime 0
      (some [9, 9, 9, 9]) 4 7) =
      { Status := STATUS_INVALID_PARAMETER, Buffer := some [9, 9, 9, 9], ReturnedLength := 0,
        Exchanges := [], DevExt := SM5714_BATTERY_FDO_DATA.mk 1 } :=
  (C10_unsupported_level (SM5714_BATTERY_FDO_DATA.mk 1)
    (fun _ => { Status := STATUS_SUCCESS, Data := some 0 }) BatteryEstimatedTime 0
    (some [9, 9, 9, 9]) 4 7 (by decide)).1

/-! ## Directives and notifications -/

/-- C11: set-information with the current tag returns STATUS_SUCCESS for the kinds charge-enable
and discharge-enable whatever the payload, null included; for each of the kinds critical-bias,
charging-source, charger-id and charger-status it returns STATUS_INVALID_PARAMETER_4, the
invalid-parameter status for the payload argument, when the payload is null, and STATUS_SUCCESS
when it is not. -/
theorem C11_set_information_payload (DevExt : SM5714_BATTERY_FDO_DATA) :
    (∀ Buffer : Option (List Nat),
      (SM5714BatterySetInformation DevExt DevExt.BatteryTag BatteryCharge Buffer).Status =
        STATUS_SUCCESS ∧
      (SM5714BatterySetInformation DevExt DevExt.BatteryTag BatteryDischarge Buffer).Status =
        STATUS_SUCCESS) ∧
    (∀ Level : Nat,
      Level ∈ [BatteryCriticalBias, BatteryChargingSource, BatteryChargerId,
        BatteryChargerStatus] →
      (SM5714BatterySetInformation DevExt DevExt.BatteryTag Level none).Status =
        STATUS_INVALID_PARAMETER_4 ∧
      InvalidParameterKind
        (SM5714BatterySetInformation DevExt DevExt.BatteryTag Level none).Status = true ∧
      NT_SUCCESS (SM5714BatterySetInformation DevExt DevExt.BatteryTag Level none).Status =
        false ∧
      (∀ Payload : List Nat,
        (SM5714BatterySetInformation DevExt DevExt.BatteryTag Level (some Payload)).Status =
          STATUS_SUCCESS)) := by
  refine ⟨?_, ?_⟩
  · intro Buffer
    constructor <;>
      simp [SM5714BatterySetInformation, BatteryCharge, BatteryDischarge]
  · intro Level hLevel
    simp only [List.mem_cons, List.mem_singleton, List.not_mem_nil, or_false] at hLevel
    have hnull : (SM5714BatterySetInformation DevExt DevExt.BatteryTag Level none).Status =
        STATUS_INVALID_PARAMETER_4 := by
      rcases hLevel with h | h | h | h <;> subst h <;>
        simp [SM5714BatterySetInformation, BatteryCharge, BatteryDischarge, BatteryCriticalBias,
          BatteryChargingSource, BatteryChargerId, BatteryChargerStatus]
    have hsome : ∀ Payload : List Nat,
        (SM5714BatterySetInformation DevExt DevExt.BatteryTag Level (some Payload)).Status =
          STATUS_SUCCESS := by
      intro Payload
      rcases hLevel with h | h | h | h <;> subst h <;>
        simp [SM5714BatterySetInformation, BatteryCharge, BatteryDischarge, BatteryCriticalBias,
          BatteryChargingSource, BatteryChargerId, BatteryChargerStatus]
    refine ⟨hnull, ?_, ?_, hsome⟩
    · rw [hnull]
      decide
    · rw [hnull]
      decide

/-- C11, at the kind critical-bias on an instance with tag 7: null payload, then a four-byte
payload. -/
theorem C11_set_information_payload_witness :
    (SM5714BatterySetInformation (SM5714_BATTERY_FDO_DATA.mk 7) 7 BatteryCriticalBias
      none).Status = STATUS_INVALID_PARAMETER_4 ∧
    (SM5714BatterySetInformation (SM5714_BATTERY_FDO_DATA.mk 7) 7 BatteryCriticalBias
      (some [0, 0, 0, 0])).Status = STATUS_SUCCESS :=
  ⟨((C11_set_information_payload (SM5714_BATTERY_FDO_DATA.mk 7)).2 BatteryCriticalBias
      (by decide)).1,
    ((C11_set_information_payload (SM5714_BATTERY_FDO_DATA.mk 7)).2 BatteryCriticalBias
      (by decide)).2.2.2 [0, 0, 0, 0]⟩

/-- C12 as stated fails on the code: on an instance whose tag is 7, set-status-notify presenting
tag 3 returns STATUS_NO_SUCH_DEVICE, not STATUS_NOT_SUPPORTED. -/
theorem C12_counterexample :
    (SM5714BatterySetStatusNotify (SM5714_BATTERY_FDO_DATA.mk 7) 3
      { PowerState := 0, LowCapacity := 0, HighCapacity := 0 }).Status = STATUS_NO_SUCH_DEVICE ∧
    (SM5714BatterySetStatusNotify (SM5714_BATTERY_FDO_DATA.mk 7) 3
      { PowerState := 0, LowCapacity := 0, HighCapacity := 0 }).Status ≠ STATUS_NOT_SUPPORTED := by
  decide

/-- C12, amended: set-status-notify returns STATUS_NOT_SUPPORTED for every notification criteria
when the presented tag is the current one and STATUS_NO_SUCH_DEVICE when it is not;
disable-status-notify returns STATUS_NOT_SUPPORTED in every state. Neither issues a bus
exchange nor changes the device extension. -/
theorem C12_status_notify (DevExt : SM5714_BATTERY_FDO_DATA) (BatteryTag : Nat)
    (BatteryNotify : BATTERY_NOTIFY) :
    SM5714BatterySetStatusNotify DevExt BatteryTag BatteryNotify =
      { Status := if BatteryTag = DevExt.BatteryTag then STATUS_NOT_SUPPORTED
          else STATUS_NO_SUCH_DEVICE,
        Exchanges := [], DevExt := DevExt } ∧
    SM5714BatteryDisableStatusNotify DevExt =
      { Status := STATUS_NOT_SUPPORTED, Exchanges := [], DevExt := DevExt } := by
  refine ⟨?_, rfl⟩
  unfold SM5714BatterySetStatusNotify
  by_cases h : BatteryTag = DevExt.BatteryTag
  · simp [h]
  · simp [h]

/-! ## Rate and power state -/

theorem QueryStatusCurrent_bounds (rawCurr : Nat) :
    -3999 ≤ QueryStatusCurrent rawCurr ∧ QueryStatusCurrent rawCurr ≤ 3999 := by
  rw [QueryStatusCurrent_eq]
  have b1 : rawCurr / 2048 % 4 * 1000 ≤ 3000 := by omega
  have b2 : rawCurr % 2048 * 1000 / 2048 ≤ 999 := by omega
  generalize rawCurr / 2048 % 4 * 1000 = a at b1 ⊢
  generalize rawCurr % 2048 * 1000 / 2048 = f at b2 ⊢
  split <;> omega

theorem QueryStatusVoltage_le (rawOcv : Nat) : QueryStatusVoltage rawOcv ≤ 7999 := by
  rw [QueryStatusVoltage_eq]
  omega

/-- Division truncated toward zero by 1000, through the floor division of the magnitude. -/
theorem tdiv_1000 (x : Int) :
    (0 ≤ x → Int.tdiv x 1000 = x / 1000) ∧ (x ≤ 0 → Int.tdiv x 1000 = -(-x / 1000)) := by
  constructor
  · intro h
    exact Int.tdiv_eq_ediv h (by decide)
  · intro h
    have e : x = -(-x) := by omega
    rw [e, Int.neg_tdiv, Int.tdiv_eq_ediv (by omega) (by decide)]
    simp

/-- The arithmetic of the rate on a current and a voltage in the ranges the decoders give:
no conversion to `LONG` changes a value. -/
theorem rate_arith (c : Int) (v : Nat) (hc1 : -3999 ≤ c) (hc2 : c ≤ 3999) (hv : v ≤ 7999) :
    LONG_of (Int.tdiv (LONG_of (LONG_of c * LONG_of (v : Int))) 1000) =
      Int.tdiv (c * (v : Int)) 1000 ∧
    -2147483648 ≤ c * (v : Int) ∧ c * (v : Int) < 2147483648 ∧
    -31988 ≤ Int.tdiv (c * (v : Int)) 1000 ∧ Int.tdiv (c * (v : Int)) 1000 ≤ 31988 := by
  have l1 : LONG_of c = c := LONG_of_eq_self _ (by omega) (by omega)
  have l2 : LONG_of (v : Int) = v := LONG_of_eq_self _ (by omega) (by omega)
  have p1 : c * (v : Int) ≤ 31988001 := by nlinarith
  have p2 : -31988001 ≤ c * (v : Int) := by nlinarith
  rw [l1, l2]
  generalize c * (v : Int) = p at p1 p2 ⊢
  clear l1 l2 hc1 hc2 hv
  have l3 : LONG_of p = p := LONG_of_eq_self _ (by omega) (by omega)
  rw [l3]
  have t := tdiv_1000 p
  have q : -31988 ≤ Int.tdiv p 1000 ∧ Int.tdiv p 1000 ≤ 31988 := by
    rcases le_total 0 p with h | h
    · rw [t.1 h]
      omega
    · rw [t.2 h]
      omega
  have l4 : LONG_of (Int.tdiv p 1000) = Int.tdiv p 1000 :=
    LONG_of_eq_self _ (by omega) (by omega)
  exact ⟨l4, by omega, by omega, q.1, q.2⟩

/-- C13: for every pair of 16-bit raw current and voltage words the decoded current lies in
-3999..3999 mA and the decoded voltage in 0..7999 mV, their product fits a signed 32-bit
integer, and the rate the status query reports is that product divided by 1000 with
truncation toward zero, of magnitude at most 31988; the reported voltage is the decoded
voltage. -/
theorem C13_rate (rawCurr rawOcv : Nat) (hCurr : rawCurr < 65536) (hOcv : rawOcv < 65536) :
    -3999 ≤ QueryStatusCurrent rawCurr ∧ QueryStatusCurrent rawCurr ≤ 3999 ∧
    QueryStatusVoltage rawOcv ≤ 7999 ∧
    -2147483648 ≤ QueryStatusCurrent rawCurr * (QueryStatusVoltage rawOcv : Int) ∧
    QueryStatusCurrent rawCurr * (QueryStatusVoltage rawOcv : Int) < 2147483648 ∧
    (∀ (DevExt : SM5714_BATTERY_FDO_DATA) (I2CContext : SPB_CONTEXT)
        (BatteryStatus : BATTERY_STATUS),
      (I2CContext SpbCommand.write_current).Data = some rawCurr →
      (I2CContext SpbCommand.write_ocv).Data = some rawOcv →
      (SM5714BatteryQueryStatus DevExt I2CContext DevExt.BatteryTag
        BatteryStatus).BatteryStatus.Rate =
          Int.tdiv (QueryStatusCurrent rawCurr * (QueryStatusVoltage rawOcv : Int)) 1000 ∧
      -31988 ≤ (SM5714BatteryQueryStatus DevExt I2CContext DevExt.BatteryTag
        BatteryStatus).BatteryStatus.Rate ∧
      (SM5714BatteryQueryStatus DevExt I2CContext DevExt.BatteryTag
        BatteryStatus).BatteryStatus.Rate ≤ 31988 ∧
      (SM5714BatteryQueryStatus DevExt I2CContext DevExt.BatteryTag
        BatteryStatus).BatteryStatus.Voltage = QueryStatusVoltage rawOcv) := by
  have hc := QueryStatusCurrent_bounds rawCurr
  have hv := QueryStatusVoltage_le rawOcv
  have hr := rate_arith (QueryStatusCurrent rawCurr) (QueryStatusVoltage rawOcv) hc.1 hc.2 hv
  refine ⟨hc.1, hc.2, hv, hr.2.1, hr.2.2.1, ?_⟩
  intro DevExt I2CContext BatteryStatus hdc hdv
  rw [QueryStatus_current, SpbWriteRead_data_some _ _ _ _ hdc, SpbWriteRead_data_some _ _ _ _ hdv,
    Nat.mod_eq_of_lt hCurr, Nat.mod_eq_of_lt hOcv]
  exact ⟨hr.1, hr.1 ▸ hr.2.2.2.1, hr.1 ▸ hr.2.2.2.2, rfl⟩

/-- C13, at the raw current 0x8667 (-800 mA) and the raw voltage 0x1400 (2500 mV): the rate
is -2000 mW. -/
theorem C13_rate_witness :
    0x8667 < 65536 ∧ 0x1400 < 65536 ∧
    (SM5714BatteryQueryStatus (SM5714_BATTERY_FDO_DATA.mk 1)
      (fun c => match c with
        | SpbCommand.write_current => { Status := STATUS_SUCCESS, Data := some 0x8667 }
        | _ => { Status := STATUS_SUCCESS, Data := some 0x1400 }) 1
      { PowerState := 0, Capacity := 0, Voltage := 0, Rate := 0 }).BatteryStatus.Rate =
        Int.tdiv (QueryStatusCurrent 0x8667 * (QueryStatusVoltage 0x1400 : Int)) 1000 ∧
    Int.tdiv (QueryStatusCurrent 0x8667 * (QueryStatusVoltage 0x1400 : Int)) 1000 = -2000 :=
  ⟨by decide, by decide,
    ((C13_rate 0x8667 0x1400 (by decide) (by decide)).2.2.2.2.2 (SM5714_BATTERY_FDO_DATA.mk 1)
      (fun c => match c with
        | SpbCommand.write_current => { Status := STATUS_SUCCESS, Data := some 0x8667 }
        | _ => { Status := STATUS_SUCCESS, Data := some 0x1400 })
      { PowerState := 0, Capacity := 0, Voltage := 0, Rate := 0 } rfl rfl).1,
    by decide⟩

/-- C14: for every 16-bit raw current word the power state the status query reports is
BATTERY_POWER_ON_LINE when the decoded current is at least 30 mA and BATTERY_DISCHARGING
otherwise. -/
theorem C14_power_state (rawCurr : Nat) (hCurr : rawCurr < 65536)
    (DevExt : SM5714_BATTERY_FDO_DATA) (I2CContext : SPB_CONTEXT)
    (BatteryStatus : BATTERY_STATUS)
    (hData : (I2CContext SpbCommand.write_current).Data = some rawCurr) :
    (30 ≤ QueryStatusCurrent rawCurr →
      (SM5714BatteryQueryStatus DevExt I2CContext DevExt.BatteryTag
        BatteryStatus).BatteryStatus.PowerState = BATTERY_POWER_ON_LINE) ∧
    (QueryStatusCurrent rawCurr < 30 →
      (SM5714BatteryQueryStatus DevExt I2CContext DevExt.BatteryTag
        BatteryStatus).BatteryStatus.PowerState = BATTERY_DISCHARGING) ∧
    BATTERY_POWER_ON_LINE ≠ BATTERY_DISCHARGING := by
  rw [QueryStatus_current, SpbWriteRead_data_some _ _ _ _ hData, Nat.mod_eq_of_lt hCurr]
  refine ⟨?_, ?_, by decide⟩
  · intro h
    simp only [ge_iff_le, h, if_true]
  · intro h
    have h2 : ¬ (30 ≤ QueryStatusCurrent rawCurr) := by omega
    simp only [ge_iff_le, h2, if_false]

/-- C14, at the decoded currents -800, 50, 30 and 29 mA (raw words 0x8667, 0x0067, 0x003E and
0x003C): BATTERY_DISCHARGING, BATTERY_POWER_ON_LINE, BATTERY_POWER_ON_LINE and
BATTERY_DISCHARGING. -/
theorem C14_power_state_witness :
    (QueryStatusCurrent 0x8667 = -800 ∧
      (SM5714BatteryQueryStatus (SM5714_BATTERY_FDO_DATA.mk 1) (busDelivering 0 0 0x8667) 1
        { PowerState := 0, Capacity := 0, Voltage := 0, Rate := 0 }).BatteryStatus.PowerState =
        BATTERY_DISCHARGING) ∧
    (QueryStatusCurrent 0x0067 = 50 ∧
      (SM5714BatteryQueryStatus (SM5714_BATTERY_FDO_DATA.mk 1) (busDelivering 0 0 0x0067) 1
        { PowerState := 0, Capacity := 0, Voltage := 0, Rate := 0 }).BatteryStatus.PowerState =
        BATTERY_POWER_ON_LINE) ∧
    (QueryStatusCurrent 0x003E = 30 ∧
      (SM5714BatteryQueryStatus (SM5714_BATTERY_FDO_DATA.mk 1) (busDelivering 0 0 0x003E) 1
        { PowerState := 0, Capacity := 0, Voltage := 0, Rate := 0 }).BatteryStatus.PowerState =
        BATTERY_POWER_ON_LINE) ∧
    (QueryStatusCurrent 0x003C = 29 ∧
      (SM5714BatteryQueryStatus (SM5714_BATTERY_FDO_DATA.mk 1) (busDelivering 0 0 0x003C) 1
        { PowerState := 0, Capacity := 0, Voltage := 0, Rate := 0 }).BatteryStatus.PowerState =
        BATTERY_DISCHARGING) :=
  ⟨⟨by decide,
      (C14_power_state 0x8667 (by decide) (SM5714_BATTERY_FDO_DATA.mk 1)
        (busDelivering 0 0 0x8667) _ rfl).2.1 (by decide)⟩,
    ⟨by decide,
      (C14_power_state 0x0067 (by decide) (SM5714_BATTERY_FDO_DATA.mk 1)
        (busDelivering 0 0 0x0067) _ rfl).1 (by decide)⟩,
    ⟨by decide,
      (C14_power_state 0x003E (by decide) (SM5714_BATTERY_FDO_DATA.mk 1)
        (busDelivering 0 0 0x003E) _ rfl).1 (by decide)⟩,
    ⟨by decide,
      (C14_power_state 0x003C (by decide) (SM5714_BATTERY_FDO_DATA.mk 1)
        (busDelivering 0 0 0x003C) _ rfl).2.1 (by decide)⟩⟩

/-- C15, the code at failing inputs: the raw voltage words 0x8000 and 0xA400 have the sign bit
set, and the status query reports 0 mV and 4500 mV for them, not 4000 mV: the comparison
`rawOcv < 0` that guards the clamp is made on an unsigned word. -/
theorem C15_voltage_clamp_failing_input :
    bits 0x8000 15 15 = 1 ∧ bits 0xA400 15 15 = 1 ∧
    (SM5714BatteryQueryStatus (SM5714_BATTERY_FDO_DATA.mk 1) (busDelivering 0 0x8000 0) 1
      { PowerState := 0, Capacity := 0, Voltage := 0, Rate := 0 }).Status = STATUS_SUCCESS ∧
    (SM5714BatteryQueryStatus (SM5714_BATTERY_FDO_DATA.mk 1) (busDelivering 0 0x8000 0) 1
      { PowerState := 0, Capacity := 0, Voltage := 0, Rate := 0 }).BatteryStatus.Voltage = 0 ∧
    (SM5714BatteryQueryStatus (SM5714_BATTERY_FDO_DATA.mk 1) (busDelivering 0 0xA400 0) 1
      { PowerState := 0, Capacity := 0, Voltage := 0, Rate := 0 }).BatteryStatus.Voltage =
        4500 := by
  decide

/-! ## Unsupported directives and the battery descriptor -/

/-- C16 as stated fails on the code: with the current tag, a directive kind outside the six
handled ones (here 6) and a null payload, set-information returns STATUS_INVALID_PARAMETER_4,
not STATUS_NOT_SUPPORTED, because the test for a null payload comes before the dispatch on the
remaining kinds. -/
theorem C16_counterexample :
    (6 : Nat) ∉ [BatteryCharge, BatteryDischarge, BatteryChargingSource, BatteryCriticalBias,
      BatteryChargerId, BatteryChargerStatus] ∧
    (SM5714BatterySetInformation (SM5714_BATTERY_FDO_DATA.mk 7) 7 6 none).Status =
      STATUS_INVALID_PARAMETER_4 ∧
    (SM5714BatterySetInformation (SM5714_BATTERY_FDO_DATA.mk 7) 7 6 none).Status ≠
      STATUS_NOT_SUPPORTED := by
  decide

/-- C16, amended: with the current tag and a directive kind that is none of charge-enable,
discharge-enable, charging-source, critical-bias, charger-id and charger-status,
set-information returns STATUS_NOT_SUPPORTED for every non-null payload, and
STATUS_INVALID_PARAMETER_4 for a null payload. -/
theorem C16_unsupported_directive (DevExt : SM5714_BATTERY_FDO_DATA) (Level : Nat)
    (hLevel : Level ∉ [BatteryCharge, BatteryDischarge, BatteryChargingSource,
      BatteryCriticalBias, BatteryChargerId, BatteryChargerStatus]) :
    (∀ Payload : List Nat,
      SM5714BatterySetInformation DevExt DevExt.BatteryTag Level (some Payload) =
        { Status := STATUS_NOT_SUPPORTED, Exchanges := [], DevExt := DevExt }) ∧
    SM5714BatterySetInformation DevExt DevExt.BatteryTag Level none =
      { Status := STATUS_INVALID_PARAMETER_4, Exchanges := [], DevExt := DevExt } ∧
    STATUS_INVALID_PARAMETER_4 ≠ STATUS_NOT_SUPPORTED := by
  simp only [List.mem_cons, List.mem_singleton, List.not_mem_nil, or_false, not_or] at hLevel
  obtain ⟨h1, h2, h3, h4, h5, h6⟩ := hLevel
  refine ⟨?_, ?_, by decide⟩
  · intro Payload
    simp [SM5714BatterySetInformation, h1, h2, h3, h4, h5, h6]
  · simp [SM5714BatterySetInformation, h1, h2]

/-- C16 amended, at the directive kind 6 on an instance with tag 7. -/
theorem C16_unsupported_directive_witness :
    (SM5714BatterySetInformation (SM5714_BATTERY_FDO_DATA.mk 7) 7 6 (some [1])).Status =
      STATUS_NOT_SUPPORTED :=
  congrArg DIRECTIVE_RESULT.Status
    ((C16_unsupported_directive (SM5714_BATTERY_FDO_DATA.mk 7) 6 (by decide)).1 [1])

/-- C17: when the cycle-count exchange fails during a static-information query for the battery
descriptor presented with the current tag, the query returns the status of that exchange,
which is a failure status, whatever the buffer and its length; it reports returned length 0,
leaves the buffer as it was, and has issued that one exchange. -/
theorem C17_cycle_count_failure (DevExt : SM5714_BATTERY_FDO_DATA) (I2CContext : SPB_CONTEXT)
    (AtRate : Int) (Buffer : Option (List Nat)) (BufferLength ReturnedLength : Nat)
    (hFail : NT_SUCCESS (I2CContext SpbCommand.write_cycle).Status = false) :
    SM5714BatteryQueryInformation DevExt I2CContext DevExt.BatteryTag BatteryInformation AtRate
        Buffer BufferLength ReturnedLength =
      { Status := (I2CContext SpbCommand.write_cycle).Status, Buffer := Buffer,
        ReturnedLength := 0, Exchanges := [SpbCommand.write_cycle], DevExt := DevExt } ∧
    (I2CContext SpbCommand.write_cycle).Status ≠ STATUS_SUCCESS ∧
    ((I2CContext SpbCommand.write_cycle).Status ≠ STATUS_BUFFER_TOO_SMALL →
      (SM5714BatteryQueryInformation DevExt I2CContext DevExt.BatteryTag BatteryInformation
        AtRate Buffer BufferLength ReturnedLength).Status ≠ STATUS_BUFFER_TOO_SMALL) := by
  have hsw : QueryInformationSwitch I2CContext BatteryInformation =
      { Status := (I2CContext SpbCommand.write_cycle).Status, ReturnBuffer := none,
        ReturnBufferLength := 0, Exchanges := [SpbCommand.write_cycle] } := by
    simp only [QueryInformationSwitch, if_true, SM5714BatteryQueryBatteryInformation]
    have hs := SpbWriteRead_status I2CContext SpbCommand.write_cycle 0
    generalize SpbWriteRead I2CContext SpbCommand.write_cycle 0 = p at hs
    obtain ⟨s, w⟩ := p
    simp only at hs
    subst hs
    simp [hFail]
  have hq : SM5714BatteryQueryInformation DevExt I2CContext DevExt.BatteryTag
      BatteryInformation AtRate Buffer BufferLength ReturnedLength =
      { Status := (I2CContext SpbCommand.write_cycle).Status, Buffer := Buffer,
        ReturnedLength := 0, Exchanges := [SpbCommand.write_cycle], DevExt := DevExt } := by
    simp [SM5714BatteryQueryInformation, hsw, hFail]
  refine ⟨hq, ?_, ?_⟩
  · intro h
    rw [h] at hFail
    exact absurd hFail (by decide)
  · intro h
    rw [hq]
    exact h

/-- C17, at a bus whose cycle-count exchange fails with STATUS_IO_DEVICE_ERROR (0xC0000185),
with a 40-byte buffer. -/
theorem C17_cycle_count_failure_witness :
    SM5714BatteryQueryInformation (SM5714_BATTERY_FDO_DATA.mk 1)
        (fun _ => { Status := 0xC0000185, Data := none }) 1 BatteryInformation 0
        (some (List.replicate 40 9)) 40 77 =
      { Status := 0xC0000185, Buffer := some (List.replicate 40 9), ReturnedLength := 0,
        Exchanges := [SpbCommand.write_cycle], DevExt := SM5714_BATTERY_FDO_DATA.mk 1 } :=
  (C17_cycle_count_failure (SM5714_BATTERY_FDO_DATA.mk 1)
    (fun _ => { Status := 0xC0000185, Data := none }) 0 (some (List.replicate 40 9)) 40 77
    (by decide)).1

theorem and_0x00FF (x : Nat) : x &&& 0x00FF = x % 256 := by
  simpa using and_mask x 8 0

theorem and_0xff00 (x : Nat) : x &&& 0xff00 = x / 256 % 256 * 256 := by
  simpa using and_mask x 8 8

/-- The descriptor filled by `SM5714BatteryQueryBatteryInformation` after a successful
cycle-count exchange, starting from the zero-initialised local of the caller. -/
theorem QueryBatteryInformation_success (I2CContext : SPB_CONTEXT) (rawCycle : Nat)
    (h16 : rawCycle < 65536)
    (hOk : NT_SUCCESS (I2CContext SpbCommand.write_cycle).Status = true)
    (hData : (I2CContext SpbCommand.write_cycle).Data = some rawCycle) :
    SM5714BatteryQueryBatteryInformation I2CContext
        { Capabilities := 0, Technology := 0, Reserved := [0, 0, 0], Chemistry := [0, 0, 0, 0],
          DesignedCapacity := 0, FullChargedCapacity := 0, DefaultAlert1 := 0,
          DefaultAlert2 := 0, CriticalBias := 0, CycleCount := 0 } =
      { Status := (I2CContext SpbCommand.write_cycle).Status,
        BatteryInformationResult := StaticBatteryDescriptor (rawCycle % 256),
        Exchanges := [SpbCommand.write_cycle] } := by
  have hw : SpbWriteRead I2CContext SpbCommand.write_cycle 0 =
      ((I2CContext SpbCommand.write_cycle).Status, rawCycle) := by
    simp only [SpbWriteRead, hData, Nat.mod_eq_of_lt h16]
  have hcc : ULONG_of (if (rawCycle : Int) < 0 then 0 else ((rawCycle &&& 0x00FF : Nat) : Int)) =
      rawCycle % 256 := by
    rw [if_neg (by omega), and_0x00FF, ULONG_of_natCast]
    omega
  simp only [SM5714BatteryQueryBatteryInformation, hw, hOk, Bool.not_true, Bool.false_eq_true,
    if_false, hcc, StaticBatteryDescriptor, memcpy]
  rfl

/-- C18: after a successful cycle-count exchange delivering the 16-bit word r, the descriptor
filled by the battery-information query has chemistry "LION", designed capacity 19800 mWh,
full-charged capacity 19228 mWh, critical bias 0, alert thresholds 19228 * 7 div 100 = 1345 and
19228 * 9 div 100 = 1730 (so alert1 < alert2 < full-charged ≤ designed), and cycle count
r AND 0xFF, the low byte of r; a query with the current tag and a buffer of at least 36 bytes
returns STATUS_SUCCESS with the memory image of that descriptor. -/
theorem C18_battery_descriptor (I2CContext : SPB_CONTEXT) (rawCycle : Nat)
    (h16 : rawCycle < 65536)
    (hOk : NT_SUCCESS (I2CContext SpbCommand.write_cycle).Status = true)
    (hData : (I2CContext SpbCommand.write_cycle).Data = some rawCycle) :
    (SM5714BatteryQueryBatteryInformation I2CContext
        { Capabilities := 0, Technology := 0, Reserved := [0, 0, 0], Chemistry := [0, 0, 0, 0],
          DesignedCapacity := 0, FullChargedCapacity := 0, DefaultAlert1 := 0,
          DefaultAlert2 := 0, CriticalBias := 0, CycleCount := 0 }).BatteryInformationResult =
      StaticBatteryDescriptor (rawCycle &&& 0xFF) ∧
    rawCycle &&& 0xFF = bits rawCycle 7 0 ∧ rawCycle &&& 0xFF ≤ 255 ∧
    (StaticBatteryDescriptor (rawCycle &&& 0xFF)).Chemistry =
      ['L'.toNat, 'I'.toNat, 'O'.toNat, 'N'.toNat] ∧
    (StaticBatteryDescriptor (rawCycle &&& 0xFF)).DesignedCapacity = 19800 ∧
    (StaticBatteryDescriptor (rawCycle &&& 0xFF)).FullChargedCapacity = 19228 ∧
    (StaticBatteryDescriptor (rawCycle &&& 0xFF)).CriticalBias = 0 ∧
    (StaticBatteryDescriptor (rawCycle &&& 0xFF)).DefaultAlert1 = 1345 ∧
    (StaticBatteryDescriptor (rawCycle &&& 0xFF)).DefaultAlert2 = 1730 ∧
    (StaticBatteryDescriptor (rawCycle &&& 0xFF)).CycleCount = rawCycle &&& 0xFF ∧
    (1345 < 1730 ∧ 1730 < 19228 ∧ 19228 ≤ 19800) ∧
    (∀ (DevExt : SM5714_BATTERY_FDO_DATA) (AtRate : Int) (Bytes : List Nat)
        (BufferLength ReturnedLength : Nat), 36 ≤ BufferLength →
      SM5714BatteryQueryInformation DevExt I2CContext DevExt.BatteryTag BatteryInformation AtRate
          (some Bytes) BufferLength ReturnedLength =
        { Status := STATUS_SUCCESS,
          Buffer := some ((StaticBatteryDescriptor (rawCycle &&& 0xFF)).bytes ++ Bytes.drop 36),
          ReturnedLength := 36, Exchanges := [SpbCommand.write_cycle], DevExt := DevExt }) := by
  have hq := QueryBatteryInformation_success I2CContext rawCycle h16 hOk hData
  have hand : rawCycle &&& 0xFF = rawCycle % 256 := and_0x00FF rawCycle
  have hbits : rawCycle % 256 = bits rawCycle 7 0 := by
    simp [bits]
  rw [hand]
  refine ⟨by rw [hq], hbits, by omega, rfl, rfl, rfl, rfl, rfl, rfl, rfl, by decide, ?_⟩
  intro DevExt AtRate Bytes BufferLength ReturnedLength hlen
  have hsw : QueryInformationSwitch I2CContext BatteryInformation =
      { Status := STATUS_SUCCESS,
        ReturnBuffer := some (StaticBatteryDescriptor (rawCycle % 256)).bytes,
        ReturnBufferLength := 36, Exchanges := [SpbCommand.write_cycle] } := by
    simp only [QueryInformationSwitch, if_true, hq, hOk, Bool.not_true, Bool.false_eq_true,
      if_false]
  have hs : NT_SUCCESS STATUS_SUCCESS = true := by decide
  have hl : ULONG_of ((36 : Nat) : Int) = 36 := by
    rw [ULONG_of_natCast]
  have hnlt : ¬ BufferLength < 36 := by omega
  have htake : (StaticBatteryDescriptor (rawCycle % 256)).bytes.take 36 =
      (StaticBatteryDescriptor (rawCycle % 256)).bytes := by
    rfl
  simp only [SM5714BatteryQueryInformation, ne_eq, not_true_eq_false, if_false, hsw, hs, if_true,
    hl, hnlt, memcpy, htake]

/-- C18, at a bus whose cycle-count exchange succeeds with the word 0x1234: cycle count
0x34. -/
theorem C18_battery_descriptor_witness :
    (SM5714BatteryQueryBatteryInformation (fun _ => { Status := STATUS_SUCCESS, Data := some 0x1234 })
        { Capabilities := 0, Technology := 0, Reserved := [0, 0, 0], Chemistry := [0, 0, 0, 0],
          DesignedCapacity := 0, FullChargedCapacity := 0, DefaultAlert1 := 0,
          DefaultAlert2 := 0, CriticalBias := 0, CycleCount := 0 }).BatteryInformationResult =
      StaticBatteryDescriptor (0x1234 &&& 0xFF) ∧
    0x1234 &&& 0xFF = 0x34 :=
  ⟨(C18_battery_descriptor (fun _ => { Status := STATUS_SUCCESS, Data := some 0x1234 }) 0x1234
      (by decide) (by decide) rfl).1,
    by decide⟩

/-! ## Direction of the rate, and the capacity -/

/-- C19 as stated fails on the code: with the raw current 0x003C (29 mA) and the raw voltage
0x2000 (4000 mV) the status query reports BATTERY_DISCHARGING together with the positive rate
116 mW. -/
theorem C19_counterexample :
    QueryStatusCurrent 0x003C = 29 ∧ QueryStatusVoltage 0x2000 = 4000 ∧
    (SM5714BatteryQueryStatus (SM5714_BATTERY_FDO_DATA.mk 1) (busDelivering 0 0x2000 0x003C) 1
      { PowerState := 0, Capacity := 0, Voltage := 0, Rate := 0 }).Status = STATUS_SUCCESS ∧
    (SM5714BatteryQueryStatus (SM5714_BATTERY_FDO_DATA.mk 1) (busDelivering 0 0x2000 0x003C) 1
      { PowerState := 0, Capacity := 0, Voltage := 0, Rate := 0 }).BatteryStatus.PowerState =
        BATTERY_DISCHARGING ∧
    (SM5714BatteryQueryStatus (SM5714_BATTERY_FDO_DATA.mk 1) (busDelivering 0 0x2000 0x003C) 1
      { PowerState := 0, Capacity := 0, Voltage := 0, Rate := 0 }).BatteryStatus.Rate = 116 := by
  decide

/-- The sign of the rate for a current and a voltage in the ranges the decoders give. -/
theorem rate_sign (c : Int) (v : Nat) (hv : v ≤ 7999) :
    (0 ≤ c → 0 ≤ Int.tdiv (c * (v : Int)) 1000) ∧
    (c ≤ 0 → Int.tdiv (c * (v : Int)) 1000 ≤ 0) ∧
    (0 ≤ c → c ≤ 29 → Int.tdiv (c * (v : Int)) 1000 ≤ 231) := by
  have hv0 : (0 : Int) ≤ v := by omega
  refine ⟨?_, ?_, ?_⟩
  · intro hc
    exact Int.tdiv_nonneg (mul_nonneg hc hv0) (by decide)
  · intro hc
    have hp : c * (v : Int) ≤ 0 := mul_nonpos_of_nonpos_of_nonneg hc hv0
    rw [(tdiv_1000 _).2 hp]
    generalize c * (v : Int) = p at hp
    omega
  · intro hc0 hc
    have hp0 : 0 ≤ c * (v : Int) := mul_nonneg hc0 hv0
    have hp : c * (v : Int) ≤ 231971 := by nlinarith
    rw [(tdiv_1000 _).1 hp0]
    generalize c * (v : Int) = p at hp hp0
    omega

/-- The rate is positive exactly when the product of current and voltage reaches 1000. -/
theorem rate_pos_iff (p : Int) : 0 < Int.tdiv p 1000 ↔ 1000 ≤ p := by
  have t := tdiv_1000 p
  rcases le_total 0 p with h | h
  · rw [t.1 h]
    omega
  · rw [t.2 h]
    omega

/-- C19, amended: in the result of a status query with the current tag the rate is the decoded
current times the decoded voltage divided by 1000 with truncation toward zero, and the power
state is BATTERY_POWER_ON_LINE exactly when the decoded current is at least 30 mA. The rate is
never negative when the power state is BATTERY_POWER_ON_LINE. When the power state is
BATTERY_DISCHARGING the decoded current is below 30 mA and the rate is never positive for a
decoded current of 0 mA or less. For every decoded current of 1 to 29 mA the power state is
BATTERY_DISCHARGING while the rate is not negative and at most 231 mW, and it is positive
exactly when current times voltage is at least 1000; a positive rate with
BATTERY_DISCHARGING occurs only for such a current. -/
theorem C19_rate_direction (DevExt : SM5714_BATTERY_FDO_DATA) (I2CContext : SPB_CONTEXT)
    (BatteryStatus : BATTERY_STATUS) :
    (SM5714BatteryQueryStatus DevExt I2CContext DevExt.BatteryTag
        BatteryStatus).BatteryStatus.Rate =
      Int.tdiv (QueryStatusCurrent (SpbWriteRead I2CContext SpbCommand.write_current 0).2 *
        (QueryStatusVoltage (SpbWriteRead I2CContext SpbCommand.write_ocv 0).2 : Int)) 1000 ∧
    ((SM5714BatteryQueryStatus DevExt I2CContext DevExt.BatteryTag
        BatteryStatus).BatteryStatus.PowerState = BATTERY_POWER_ON_LINE ↔
      30 ≤ QueryStatusCurrent (SpbWriteRead I2CContext SpbCommand.write_current 0).2) ∧
    ((SM5714BatteryQueryStatus DevExt I2CContext DevExt.BatteryTag
        BatteryStatus).BatteryStatus.PowerState = BATTERY_DISCHARGING ↔
      QueryStatusCurrent (SpbWriteRead I2CContext SpbCommand.write_current 0).2 < 30) ∧
    ((SM5714BatteryQueryStatus DevExt I2CContext DevExt.BatteryTag
        BatteryStatus).BatteryStatus.PowerState = BATTERY_POWER_ON_LINE →
      0 ≤ (SM5714BatteryQueryStatus DevExt I2CContext DevExt.BatteryTag
        BatteryStatus).BatteryStatus.Rate) ∧
    ((SM5714BatteryQueryStatus DevExt I2CContext DevExt.BatteryTag
        BatteryStatus).BatteryStatus.PowerState = BATTERY_DISCHARGING →
      QueryStatusCurrent (SpbWriteRead I2CContext SpbCommand.write_current 0).2 < 30 ∧
      (QueryStatusCurrent (SpbWriteRead I2CContext SpbCommand.write_current 0).2 ≤ 0 →
        (SM5714BatteryQueryStatus DevExt I2CContext DevExt.BatteryTag
          BatteryStatus).BatteryStatus.Rate ≤ 0) ∧
      (0 < (SM5714BatteryQueryStatus DevExt I2CContext DevExt.BatteryTag
          BatteryStatus).BatteryStatus.Rate →
        1 ≤ QueryStatusCurrent (SpbWriteRead I2CContext SpbCommand.write_current 0).2 ∧
        (SM5714BatteryQueryStatus DevExt I2CContext DevExt.BatteryTag
          BatteryStatus).BatteryStatus.Rate ≤ 231)) ∧
    (1 ≤ QueryStatusCurrent (SpbWriteRead I2CContext SpbCommand.write_current 0).2 →
      QueryStatusCurrent (SpbWriteRead I2CContext SpbCommand.write_current 0).2 ≤ 29 →
      (SM5714BatteryQueryStatus DevExt I2CContext DevExt.BatteryTag
        BatteryStatus).BatteryStatus.PowerState = BATTERY_DISCHARGING ∧
      0 ≤ (SM5714BatteryQueryStatus DevExt I2CContext DevExt.BatteryTag
        BatteryStatus).BatteryStatus.Rate ∧
      (SM5714BatteryQueryStatus DevExt I2CContext DevExt.BatteryTag
        BatteryStatus).BatteryStatus.Rate ≤ 231 ∧
      (0 < (SM5714BatteryQueryStatus DevExt I2CContext DevExt.BatteryTag
          BatteryStatus).BatteryStatus.Rate ↔
        1000 ≤ QueryStatusCurrent (SpbWriteRead I2CContext SpbCommand.write_current 0).2 *
          (QueryStatusVoltage (SpbWriteRead I2CContext SpbCommand.write_ocv 0).2 : Int))) := by
  rw [QueryStatus_current]
  have hc := QueryStatusCurrent_bounds (SpbWriteRead I2CContext SpbCommand.write_current 0).2
  have hv := QueryStatusVoltage_le (SpbWriteRead I2CContext SpbCommand.write_ocv 0).2
  generalize QueryStatusCurrent (SpbWriteRead I2CContext SpbCommand.write_current 0).2 = c at hc ⊢
  generalize QueryStatusVoltage (SpbWriteRead I2CContext SpbCommand.write_ocv 0).2 = v at hv ⊢
  have hr := (rate_arith c v hc.1 hc.2 hv).1
  have hs := rate_sign c v hv
  have hp := rate_pos_iff (c * (v : Int))
  dsimp only
  rw [hr]
  have hne : BATTERY_POWER_ON_LINE ≠ BATTERY_DISCHARGING := by decide
  by_cases h30 : c ≥ 30
  · rw [if_pos h30]
    refine ⟨rfl, ⟨fun _ => h30, fun _ => rfl⟩,
      ⟨fun h => absurd h hne, fun h => absurd h30 (by omega)⟩,
      fun _ => hs.1 (by omega), fun h => absurd h hne, ?_⟩
    intro _ h29
    exact absurd h30 (by omega)
  · rw [if_neg h30]
    have hpos : 0 < Int.tdiv (c * (v : Int)) 1000 → 1 ≤ c := by
      intro hpos
      by_contra hcon
      have := hs.2.1 (by omega)
      omega
    refine ⟨rfl, ⟨fun h => absurd h.symm hne, fun h => absurd h h30⟩,
      ⟨fun _ => by omega, fun _ => rfl⟩,
      fun h => absurd h.symm hne,
      fun _ => ⟨by omega, hs.2.1, fun h => ⟨hpos h, hs.2.2 (by have := hpos h; omega) (by omega)⟩⟩,
      ?_⟩
    intro h1 h29
    exact ⟨rfl, hs.1 (by omega), hs.2.2 (by omega) h29, hp⟩

/-- C19 amended, at both sides of the threshold. Raw current 0x003C (29 mA) with raw voltage
0x2000 (4000 mV): BATTERY_DISCHARGING with a rate that is not negative and at most 231 mW,
here 116 mW. Raw current 0x0067 (50 mA) with the same voltage: BATTERY_POWER_ON_LINE with a
rate that is not negative. -/
theorem C19_rate_direction_witness :
    ((SM5714BatteryQueryStatus (SM5714_BATTERY_FDO_DATA.mk 1) (busDelivering 0 0x2000 0x003C) 1
        { PowerState := 0, Capacity := 0, Voltage := 0, Rate := 0 }).BatteryStatus.PowerState =
          BATTERY_DISCHARGING ∧
      0 ≤ (SM5714BatteryQueryStatus (SM5714_BATTERY_FDO_DATA.mk 1) (busDelivering 0 0x2000 0x003C)
        1 { PowerState := 0, Capacity := 0, Voltage := 0, Rate := 0 }).BatteryStatus.Rate ∧
      (SM5714BatteryQueryStatus (SM5714_BATTERY_FDO_DATA.mk 1) (busDelivering 0 0x2000 0x003C) 1
        { PowerState := 0, Capacity := 0, Voltage := 0, Rate := 0 }).BatteryStatus.Rate ≤ 231) ∧
    (SM5714BatteryQueryStatus (SM5714_BATTERY_FDO_DATA.mk 1) (busDelivering 0 0x2000 0x003C) 1
      { PowerState := 0, Capacity := 0, Voltage := 0, Rate := 0 }).BatteryStatus.Rate = 116 ∧
    (SM5714BatteryQueryStatus (SM5714_BATTERY_FDO_DATA.mk 1) (busDelivering 0 0x2000 0x0067) 1
      { PowerState := 0, Capacity := 0, Voltage := 0, Rate := 0 }).BatteryStatus.PowerState =
        BATTERY_POWER_ON_LINE ∧
    0 ≤ (SM5714BatteryQueryStatus (SM5714_BATTERY_FDO_DATA.mk 1) (busDelivering 0 0x2000 0x0067) 1
      { PowerState := 0, Capacity := 0, Voltage := 0, Rate := 0 }).BatteryStatus.Rate :=
  ⟨⟨((C19_rate_direction (SM5714_BATTERY_FDO_DATA.mk 1) (busDelivering 0 0x2000 0x003C)
        { PowerState := 0, Capacity := 0, Voltage := 0, Rate := 0 }).2.2.2.2.2
        (by decide) (by decide)).1,
      ((C19_rate_direction (SM5714_BATTERY_FDO_DATA.mk 1) (busDelivering 0 0x2000 0x003C)
        { PowerState := 0, Capacity := 0, Voltage := 0, Rate := 0 }).2.2.2.2.2
        (by decide) (by decide)).2.1,
      ((C19_rate_direction (SM5714_BATTERY_FDO_DATA.mk 1) (busDelivering 0 0x2000 0x003C)
        { PowerState := 0, Capacity := 0, Voltage := 0, Rate := 0 }).2.2.2.2.2
        (by decide) (by decide)).2.2.1⟩,
    by decide, by decide,
    (C19_rate_direction (SM5714_BATTERY_FDO_DATA.mk 1) (busDelivering 0 0x2000 0x0067)
      { PowerState := 0, Capacity := 0, Voltage := 0, Rate := 0 }).2.2.2.1 (by decide)⟩

/-- The macro on a word, in plain arithmetic. -/
theorem FIXED_POINT_8_8_EXTEND_TO_INT_eq (fp_value : Nat) :
    FIXED_POINT_8_8_EXTEND_TO_INT fp_value 10 =
      fp_value / 256 % 256 * 10 + fp_value % 256 * 10 / 256 := by
  unfold FIXED_POINT_8_8_EXTEND_TO_INT
  have e : (0xff : Nat) = 0x00FF := rfl
  rw [and_0xff00, e, and_0x00FF, Nat.shiftRight_eq_div_pow]
  omega

theorem soc_fixed_eq (rawCapacity : Nat) :
    soc_fixed rawCapacity = rawCapacity / 256 % 256 * 10 + rawCapacity % 256 * 10 / 256 := by
  simp [soc_fixed, bits]

/-- C20: for every 16-bit raw state-of-charge word the macro gives soc_fixed, the integer byte
times 10 plus the fractional byte times 10 div 256, at most 2559; soc_fixed * 19228 fits a
`ULONG`, and the capacity the status query reports is soc_fixed * 19228 div 1000. That value
is monotone in soc_fixed and equals 19228 exactly when soc_fixed is 1000. -/
theorem C20_capacity (rawCapacity : Nat) (h16 : rawCapacity < 65536) :
    FIXED_POINT_8_8_EXTEND_TO_INT rawCapacity 10 = soc_fixed rawCapacity ∧
    soc_fixed rawCapacity ≤ 2559 ∧
    soc_fixed rawCapacity * 19228 < 4294967296 ∧
    (∀ (DevExt : SM5714_BATTERY_FDO_DATA) (I2CContext : SPB_CONTEXT)
        (BatteryStatus : BATTERY_STATUS),
      (I2CContext SpbCommand.write_capacity).Data = some rawCapacity →
      (SM5714BatteryQueryStatus DevExt I2CContext DevExt.BatteryTag
        BatteryStatus).BatteryStatus.Capacity = soc_fixed rawCapacity * 19228 / 1000) ∧
    (∀ other : Nat, soc_fixed rawCapacity ≤ soc_fixed other →
      soc_fixed rawCapacity * 19228 / 1000 ≤ soc_fixed other * 19228 / 1000) ∧
    (soc_fixed rawCapacity * 19228 / 1000 = 19228 ↔ soc_fixed rawCapacity = 1000) := by
  have hm : FIXED_POINT_8_8_EXTEND_TO_INT rawCapacity 10 = soc_fixed rawCapacity := by
    rw [FIXED_POINT_8_8_EXTEND_TO_INT_eq, soc_fixed_eq]
  have hb : soc_fixed rawCapacity ≤ 2559 := by
    rw [soc_fixed_eq]
    omega
  refine ⟨hm, hb, by omega, ?_, ?_, ?_⟩
  · intro DevExt I2CContext BatteryStatus hData
    rw [QueryStatus_current, SpbWriteRead_data_some _ _ _ _ hData, Nat.mod_eq_of_lt h16,
      Nat.mod_eq_of_lt h16, hm]
    have h1 : ULONG_of ((soc_fixed rawCapacity : Nat) : Int) = soc_fixed rawCapacity := by
      rw [ULONG_of_natCast]
      omega
    have h2 : ULONG_of ((soc_fixed rawCapacity * 19228 : Nat) : Int) =
        soc_fixed rawCapacity * 19228 := by
      rw [ULONG_of_natCast]
      omega
    dsimp only
    rw [h1, h2]
  · intro other hle
    generalize soc_fixed rawCapacity = a at hle
    generalize soc_fixed other = b at hle
    omega
  · generalize soc_fixed rawCapacity = a
    omega

/-- C20, at the raw word 0x6400 (100%): soc_fixed is 1000 and the reported capacity is the
full-charged capacity, 19228 mWh. -/
theorem C20_capacity_witness :
    0x6400 < 65536 ∧ soc_fixed 0x6400 = 1000 ∧
    (SM5714BatteryQueryStatus (SM5714_BATTERY_FDO_DATA.mk 1) (busDelivering 0x6400 0 0) 1
      { PowerState := 0, Capacity := 0, Voltage := 0, Rate := 0 }).BatteryStatus.Capacity =
        19228 :=
  ⟨by decide, by decide,
    ((C20_capacity 0x6400 (by decide)).2.2.2.1 (SM5714_BATTERY_FDO_DATA.mk 1)
      (busDelivering 0x6400 0 0) { PowerState := 0, Capacity := 0, Voltage := 0, Rate := 0 }
      rfl).trans (by decide)⟩

/-! ## Query-tag, outputs on failure, and the frame of the tag -/

/-- C21: query-tag stores the current tag in its output and leaves the device extension as it
was; it returns STATUS_SUCCESS exactly when that tag is not BATTERY_TAG_INVALID and
STATUS_NO_SUCH_DEVICE exactly when it is. -/
theorem C21_query_tag (DevExt : SM5714_BATTERY_FDO_DATA) :
    (SM5714BatteryQueryTag DevExt).BatteryTag = DevExt.BatteryTag ∧
    (SM5714BatteryQueryTag DevExt).DevExt = DevExt ∧
    ((SM5714BatteryQueryTag DevExt).Status = STATUS_SUCCESS ↔
      DevExt.BatteryTag ≠ BATTERY_TAG_INVALID) ∧
    ((SM5714BatteryQueryTag DevExt).Status = STATUS_NO_SUCH_DEVICE ↔
      DevExt.BatteryTag = BATTERY_TAG_INVALID) ∧
    ((SM5714BatteryQueryTag DevExt).Status = STATUS_SUCCESS ∨
      (SM5714BatteryQueryTag DevExt).Status = STATUS_NO_SUCH_DEVICE) := by
  have hne : STATUS_NO_SUCH_DEVICE ≠ STATUS_SUCCESS := by decide
  unfold SM5714BatteryQueryTag
  dsimp only
  by_cases h : DevExt.BatteryTag = BATTERY_TAG_INVALID
  · rw [if_pos h]
    refine ⟨rfl, rfl, ?_, ?_, Or.inr rfl⟩
    · exact ⟨fun e => absurd e hne, fun e => absurd h e⟩
    · exact ⟨fun _ => h, fun _ => rfl⟩
  · rw [if_neg h]
    refine ⟨rfl, rfl, ?_, ?_, Or.inl rfl⟩
    · exact ⟨fun _ => h, fun _ => rfl⟩
    · exact ⟨fun e => absurd e.symm hne, fun e => absurd e h⟩

/-- The switch of the static-information query leaves a success status only as
STATUS_SUCCESS. -/
theorem QueryInformationSwitch_success (I2CContext : SPB_CONTEXT) (Level : Nat)
    (h : NT_SUCCESS (QueryInformationSwitch I2CContext Level).Status = true) :
    (QueryInformationSwitch I2CContext Level).Status = STATUS_SUCCESS := by
  have hf : NT_SUCCESS STATUS_INVALID_PARAMETER = false := by decide
  revert h
  unfold QueryInformationSwitch
  split
  · simp only [SM5714BatteryQueryBatteryInformation]
    generalize SpbWriteRead I2CContext SpbCommand.write_cycle 0 = p
    obtain ⟨s, w⟩ := p
    by_cases hn : NT_SUCCESS s = true
    · simp [hn]
    · simp [hn]
  · split
    · rw [QueryInformationString_UniqueID]; exact fun _ => rfl
    · split
      · rw [QueryInformationString_ManufactureName]; exact fun _ => rfl
      · split
        · rw [QueryInformationString_DeviceName]; exact fun _ => rfl
        · split
          · rw [QueryInformationString_SerialNumber]; exact fun _ => rfl
          · split
            · exact fun _ => rfl
            · split
              · exact fun _ => rfl
              · split
                · exact fun _ => rfl
                · intro h
                  rw [hf] at h
                  exact absurd h (by decide)

/-- The static-information query writes the caller's buffer only on the path that returns
STATUS_SUCCESS. -/
theorem QueryInformation_buffer (DevExt : SM5714_BATTERY_FDO_DATA) (I2CContext : SPB_CONTEXT)
    (BatteryTag Level : Nat) (AtRate : Int) (Buffer : Option (List Nat))
    (BufferLength ReturnedLength : Nat) :
    (SM5714BatteryQueryInformation DevExt I2CContext BatteryTag Level AtRate Buffer BufferLength
      ReturnedLength).Status = STATUS_SUCCESS ∨
    (NT_SUCCESS (SM5714BatteryQueryInformation DevExt I2CContext BatteryTag Level AtRate Buffer
      BufferLength ReturnedLength).Status = false ∧
    (SM5714BatteryQueryInformation DevExt I2CContext BatteryTag Level AtRate Buffer BufferLength
      ReturnedLength).Buffer = Buffer) := by
  have hnsd : NT_SUCCESS STATUS_NO_SUCH_DEVICE = false := by decide
  have hbts : NT_SUCCESS STATUS_BUFFER_TOO_SMALL = false := by decide
  have hsw := QueryInformationSwitch_success I2CContext Level
  unfold SM5714BatteryQueryInformation
  generalize QueryInformationSwitch I2CContext Level = l at hsw
  obtain ⟨st, rb, len, ex⟩ := l
  simp only at hsw
  split
  · exact Or.inr ⟨hnsd, rfl⟩
  · dsimp only
    by_cases hs : NT_SUCCESS st = true
    · rw [if_pos hs]
      have hst := hsw hs
      subst hst
      cases rb with
      | none => exact Or.inl rfl
      | some ReturnBuffer =>
        cases Buffer with
        | none => exact Or.inr ⟨hbts, rfl⟩
        | some Bytes =>
          dsimp only
          split
          · exact Or.inr ⟨hbts, rfl⟩
          · exact Or.inl rfl
    · rw [if_neg hs]
      exact Or.inr ⟨by simpa using hs, rfl⟩

/-- C22: whenever the static-information query returns a status other than STATUS_SUCCESS
(the tag gate's STATUS_NO_SUCH_DEVICE, STATUS_INVALID_PARAMETER for an unsupported level, the
status of a failed exchange, or STATUS_BUFFER_TOO_SMALL) that status is a failure status and the
caller's buffer is as it was before the call; and whenever the status query returns a status
other than STATUS_SUCCESS the caller's status structure is as it was before the call. -/
theorem C22_no_partial_output (DevExt : SM5714_BATTERY_FDO_DATA) (I2CContext : SPB_CONTEXT)
    (BatteryTag Level : Nat) (AtRate : Int) (Buffer : Option (List Nat))
    (BufferLength ReturnedLength : Nat) (BatteryStatus : BATTERY_STATUS) :
    ((SM5714BatteryQueryInformation DevExt I2CContext BatteryTag Level AtRate Buffer BufferLength
        ReturnedLength).Status ≠ STATUS_SUCCESS →
      NT_SUCCESS (SM5714BatteryQueryInformation DevExt I2CContext BatteryTag Level AtRate Buffer
        BufferLength ReturnedLength).Status = false ∧
      (SM5714BatteryQueryInformation DevExt I2CContext BatteryTag Level AtRate Buffer BufferLength
        ReturnedLength).Buffer = Buffer) ∧
    (NT_SUCCESS (SM5714BatteryQueryInformation DevExt I2CContext BatteryTag Level AtRate Buffer
        BufferLength ReturnedLength).Status = false →
      (SM5714BatteryQueryInformation DevExt I2CContext BatteryTag Level AtRate Buffer BufferLength
        ReturnedLength).Buffer = Buffer) ∧
    ((SM5714BatteryQueryStatus DevExt I2CContext BatteryTag BatteryStatus).Status ≠
        STATUS_SUCCESS →
      NT_SUCCESS (SM5714BatteryQueryStatus DevExt I2CContext BatteryTag BatteryStatus).Status =
        false ∧
      (SM5714BatteryQueryStatus DevExt I2CContext BatteryTag BatteryStatus).BatteryStatus =
        BatteryStatus) ∧
    (NT_SUCCESS (SM5714BatteryQueryStatus DevExt I2CContext BatteryTag BatteryStatus).Status =
        false →
      (SM5714BatteryQueryStatus DevExt I2CContext BatteryTag BatteryStatus).BatteryStatus =
        BatteryStatus) := by
  have hs : NT_SUCCESS STATUS_SUCCESS = true := by decide
  have hq := QueryInformation_buffer DevExt I2CContext BatteryTag Level AtRate Buffer
    BufferLength ReturnedLength
  have hst : (SM5714BatteryQueryStatus DevExt I2CContext BatteryTag BatteryStatus).Status =
      STATUS_SUCCESS ∨
      (NT_SUCCESS (SM5714BatteryQueryStatus DevExt I2CContext BatteryTag BatteryStatus).Status =
        false ∧
      (SM5714BatteryQueryStatus DevExt I2CContext BatteryTag BatteryStatus).BatteryStatus =
        BatteryStatus) := by
    by_cases h : BatteryTag = DevExt.BatteryTag
    · subst h
      exact Or.inl (QueryStatus_status_current DevExt I2CContext _ BatteryStatus rfl)
    · refine Or.inr ?_
      simp only [SM5714BatteryQueryStatus, h, ne_eq, not_false_eq_true, if_true]
      exact ⟨by decide, trivial⟩
  refine ⟨?_, ?_, ?_, ?_⟩
  · intro h
    rcases hq with h1 | h1
    · exact absurd h1 h
    · exact h1
  · intro h
    rcases hq with h1 | h1
    · rw [h1, hs] at h
      exact absurd h (by decide)
    · exact h1.2
  · intro h
    rcases hst with h1 | h1
    · exact absurd h1 h
    · exact h1
  · intro h
    rcases hst with h1 | h1
    · rw [h1, hs] at h
      exact absurd h (by decide)
    · exact h1.2

/-- C22, at a device-name query with a four-byte buffer, which gets STATUS_BUFFER_TOO_SMALL:
the four bytes are as they were. -/
theorem C22_no_partial_output_witness :
    (SM5714BatteryQueryInformation (SM5714_BATTERY_FDO_DATA.mk 1) (busDelivering 0 0 0) 1
      BatteryDeviceName 0 (some [9, 8, 7, 6]) 4 0).Status = STATUS_BUFFER_TOO_SMALL ∧
    (SM5714BatteryQueryInformation (SM5714_BATTERY_FDO_DATA.mk 1) (busDelivering 0 0 0) 1
      BatteryDeviceName 0 (some [9, 8, 7, 6]) 4 0).Buffer = some [9, 8, 7, 6] :=
  ⟨by decide,
    ((C22_no_partial_output (SM5714_BATTERY_FDO_DATA.mk 1) (busDelivering 0 0 0) 1
      BatteryDeviceName 0 (some [9, 8, 7, 6]) 4 0
      { PowerState := 0, Capacity := 0, Voltage := 0, Rate := 0 }).1 (by decide)).2⟩

/-- C23: each of query-tag, query-information, query-status, set-status-notify,
disable-status-notify and set-information returns the device extension it was given, so the
current tag after the call is the tag before it, whatever the arguments, the behaviour of the
bus and the status returned; over a sequence of calls that does not contain the
hardware-attach event the tag stays the same. -/
theorem C23_tag_frame (DevExt : SM5714_BATTERY_FDO_DATA) :
    (SM5714BatteryQueryTag DevExt).DevExt.BatteryTag = DevExt.BatteryTag ∧
    (∀ (I2CContext : SPB_CONTEXT) (BatteryTag Level : Nat) (AtRate : Int)
        (Buffer : Option (List Nat)) (BufferLength ReturnedLength : Nat),
      (SM5714BatteryQueryInformation DevExt I2CContext BatteryTag Level AtRate Buffer
        BufferLength ReturnedLength).DevExt.BatteryTag = DevExt.BatteryTag) ∧
    (∀ (I2CContext : SPB_CONTEXT) (BatteryTag : Nat) (BatteryStatus : BATTERY_STATUS),
      (SM5714BatteryQueryStatus DevExt I2CContext BatteryTag BatteryStatus).DevExt.BatteryTag =
        DevExt.BatteryTag) ∧
    (∀ (BatteryTag : Nat) (BatteryNotify : BATTERY_NOTIFY),
      (SM5714BatterySetStatusNotify DevExt BatteryTag BatteryNotify).DevExt.BatteryTag =
        DevExt.BatteryTag) ∧
    (SM5714BatteryDisableStatusNotify DevExt).DevExt.BatteryTag = DevExt.BatteryTag ∧
    (∀ (BatteryTag Level : Nat) (Buffer : Option (List Nat)),
      (SM5714BatterySetInformation DevExt BatteryTag Level Buffer).DevExt.BatteryTag =
        DevExt.BatteryTag) ∧
    (∀ rs : List Request, (∀ r ∈ rs, r ≠ Request.PrepareHardware) →
      (runRequests DevExt rs).BatteryTag = DevExt.BatteryTag) := by
  refine ⟨?_, ?_, ?_, ?_, rfl, ?_, ?_⟩
  · exact congrArg SM5714_BATTERY_FDO_DATA.BatteryTag
      (Request.next_eq DevExt Request.QueryTag (fun h => Request.noConfusion h))
  · intro I2CContext BatteryTag Level AtRate Buffer BufferLength ReturnedLength
    exact congrArg SM5714_BATTERY_FDO_DATA.BatteryTag
      (Request.next_eq DevExt
        (Request.QueryInformation I2CContext BatteryTag Level AtRate Buffer BufferLength
          ReturnedLength) (fun h => Request.noConfusion h))
  · intro I2CContext BatteryTag BatteryStatus
    exact congrArg SM5714_BATTERY_FDO_DATA.BatteryTag
      (Request.next_eq DevExt (Request.QueryStatus I2CContext BatteryTag BatteryStatus)
        (fun h => Request.noConfusion h))
  · intro BatteryTag BatteryNotify
    exact congrArg SM5714_BATTERY_FDO_DATA.BatteryTag
      (Request.next_eq DevExt (Request.SetStatusNotify BatteryTag BatteryNotify)
        (fun h => Request.noConfusion h))
  · intro BatteryTag Level Buffer
    exact congrArg SM5714_BATTERY_FDO_DATA.BatteryTag
      (Request.next_eq DevExt (Request.SetInformation BatteryTag Level Buffer)
        (fun h => Request.noConfusion h))
  · intro rs
    induction rs generalizing DevExt with
    | nil => intro _; rfl
    | cons r rs ih =>
      intro h
      have hr : r ≠ Request.PrepareHardware := h r (List.mem_cons_self r rs)
      show (runRequests (Request.next DevExt r) rs).BatteryTag = DevExt.BatteryTag
      rw [Request.next_eq DevExt r hr]
      exact ih DevExt (fun r' hr' => h r' (List.mem_cons_of_mem r hr'))

/-- C23, on an instance with tag 7: a status query with the current tag (which succeeds) and a
set-information with a stale tag (which fails) both leave the tag at 7. -/
theorem C23_tag_frame_witness :
    (SM5714BatteryQueryStatus (SM5714_BATTERY_FDO_DATA.mk 7) (busDelivering 0 0 0) 7
      { PowerState := 0, Capacity := 0, Voltage := 0, Rate := 0 }).DevExt.BatteryTag = 7 ∧
    (SM5714BatterySetInformation (SM5714_BATTERY_FDO_DATA.mk 7) 3 BatteryCharge
      none).DevExt.BatteryTag = 7 :=
  ⟨(C23_tag_frame (SM5714_BATTERY_FDO_DATA.mk 7)).2.2.1 _ _ _,
    (C23_tag_frame (SM5714_BATTERY_FDO_DATA.mk 7)).2.2.2.2.2.1 _ _ _⟩

/-! ## Temperature of a raw word with the sign bit clear -/

/-- The arithmetic of the temperature level on a magnitude that is not negated: the nibble term
disappears in the division by ten. -/
theorem magnitude_over_ten (hi f : Nat) (b1 : hi ≤ 127) (b2 : f ≤ 9) :
    LONG_of ((ULONG_of (LONG_of (LONG_of ((hi * 10 : Nat) : Int) + (f : Int))) / ULONG_of 10 :
      Nat) : Int) = (hi : Int) := by
  have l1 : LONG_of ((hi * 10 : Nat) : Int) = ((hi * 10 : Nat) : Int) :=
    LONG_of_eq_self _ (by omega) (by omega)
  have l2 : LONG_of (((hi * 10 : Nat) : Int) + (f : Int)) = ((hi * 10 + f : Nat) : Int) := by
    rw [LONG_of_eq_self _ (by omega) (by omega)]
    omega
  have l3 : ULONG_of ((hi * 10 + f : Nat) : Int) = hi * 10 + f := by
    rw [ULONG_of_natCast]
    omega
  have l4 : ULONG_of 10 = 10 := by
    unfold ULONG_of
    omega
  have l5 : (hi * 10 + f) / 10 = hi := by omega
  rw [l1, l2, l3, l4, l5]
  exact LONG_of_eq_self _ (by omega) (by omega)

/-- The temperature computed from a 16-bit raw word with the sign bit clear. -/
theorem QueryInformationTemperature_sign_clear (rawTemp : Nat) (h16 : rawTemp < 65536)
    (hsign : bits rawTemp 15 15 = 0) :
    QueryInformationTemperature rawTemp = ((rawTemp >>> 8 : Nat) : Int) := by
  have hs : rawTemp / 32768 % 2 = 0 := by
    simpa [bits] using hsign
  clear hsign
  unfold QueryInformationTemperature
  rw [if_neg (by omega)]
  simp only [and_0x7fff, and_0x00f0, and_0x8000, Nat.shiftRight_eq_div_pow]
  have hz : ¬ (rawTemp / 32768 % 2 * 32768 ≠ 0) := by omega
  rw [if_neg hz]
  have e1 : rawTemp % 32768 / 2 ^ 8 = rawTemp / 256 := by omega
  have e2 : rawTemp / 2 ^ 8 = rawTemp / 256 := by omega
  rw [e1, e2]
  have b1 : rawTemp / 256 ≤ 127 := by omega
  have b2 : rawTemp / 16 % 16 * 16 * 10 / 256 ≤ 9 := by omega
  exact magnitude_over_ten _ _ b1 b2

/-- C24: for every 16-bit raw temperature word with the sign bit clear the temperature computed
by the static-information query is raw >> 8, a value in 0..127; the nibble term
(raw AND 0x00f0) * 10 div 256 is at most 9; and a query with the current tag and a buffer of at
least four bytes returns STATUS_SUCCESS with raw >> 8 as a 32-bit value in the buffer. -/
theorem C24_temperature_integer_field (rawTemp : Nat) (h16 : rawTemp < 65536)
    (hsign : bits rawTemp 15 15 = 0) :
    QueryInformationTemperature rawTemp = ((rawTemp >>> 8 : Nat) : Int) ∧
    rawTemp >>> 8 ≤ 127 ∧
    (rawTemp &&& 0x00f0) * 10 / 256 ≤ 9 ∧
    (∀ (DevExt : SM5714_BATTERY_FDO_DATA) (I2CContext : SPB_CONTEXT) (AtRate : Int)
        (Bytes : List Nat) (BufferLength ReturnedLength : Nat),
      (I2CContext SpbCommand.write_temperature).Data = some rawTemp → 4 ≤ BufferLength →
      SM5714BatteryQueryInformation DevExt I2CContext DevExt.BatteryTag BatteryTemperature AtRate
          (some Bytes) BufferLength ReturnedLength =
        { Status := STATUS_SUCCESS,
          Buffer := some (ULONG_bytes (rawTemp >>> 8) ++ Bytes.drop 4),
          ReturnedLength := 4, Exchanges := [SpbCommand.write_temperature],
          DevExt := DevExt }) := by
  have ht := QueryInformationTemperature_sign_clear rawTemp h16 hsign
  have hs : rawTemp / 32768 % 2 = 0 := by
    simpa [bits] using hsign
  have hle : rawTemp >>> 8 ≤ 127 := by
    rw [Nat.shiftRight_eq_div_pow]
    omega
  refine ⟨ht, hle, ?_, ?_⟩
  · rw [and_0x00f0]
    omega
  · intro DevExt I2CContext AtRate Bytes BufferLength ReturnedLength hData hlen
    have hw : SpbWriteRead I2CContext SpbCommand.write_temperature 0 =
        ((I2CContext SpbCommand.write_temperature).Status, rawTemp) := by
      simp only [SpbWriteRead, hData, Nat.mod_eq_of_lt h16]
    have hu : ULONG_of ((rawTemp >>> 8 : Nat) : Int) = rawTemp >>> 8 := by
      rw [ULONG_of_natCast]
      omega
    have hsw : QueryInformationSwitch I2CContext BatteryTemperature =
        { Status := STATUS_SUCCESS, ReturnBuffer := some (ULONG_bytes (rawTemp >>> 8)),
          ReturnBufferLength := 4, Exchanges := [SpbCommand.write_temperature] } := by
      simp [QueryInformationSwitch, BatteryTemperature, BatteryInformation, BatteryUniqueID,
        BatteryManufactureName, BatteryDeviceName, BatterySerialNumber, BatteryManufactureDate,
        BatteryGranularityInformation, hw, ht, hu]
    have hok : NT_SUCCESS STATUS_SUCCESS = true := by decide
    have hl : ULONG_of ((4 : Nat) : Int) = 4 := by
      rw [ULONG_of_natCast]
    have hnlt : ¬ BufferLength < 4 := by omega
    have htake : (ULONG_bytes (rawTemp >>> 8)).take 4 = ULONG_bytes (rawTemp >>> 8) := by
      rfl
    simp only [SM5714BatteryQueryInformation, ne_eq, not_true_eq_false, if_false, hsw, hok,
      if_true, hl, hnlt, memcpy, htake]

/-- C24, at the raw word 0x1A80 (integer field 26, nibble 8): the query returns 26. -/
theorem C24_temperature_integer_field_witness :
    0x1A80 < 65536 ∧ bits 0x1A80 15 15 = 0 ∧ QueryInformationTemperature 0x1A80 = 26 ∧
    (SM5714BatteryQueryInformation (SM5714_BATTERY_FDO_DATA.mk 1)
      (fun _ => { Status := STATUS_SUCCESS, Data := some 0x1A80 }) 1 BatteryTemperature 0
      (some [0, 0, 0, 0]) 4 0).Buffer = some (ULONG_bytes (0x1A80 >>> 8) ++ [0, 0, 0, 0].drop 4) :=
  ⟨by decide, by decide,
    (C24_temperature_integer_field 0x1A80 (by decide) (by decide)).1.trans (by decide),
    congrArg QUERY_INFORMATION_RESULT.Buffer
      ((C24_temperature_integer_field 0x1A80 (by decide) (by decide)).2.2.2
        (SM5714_BATTERY_FDO_DATA.mk 1) (fun _ => { Status := STATUS_SUCCESS, Data := some 0x1A80 })
        0 [0, 0, 0, 0] 4 0 rfl (by decide))⟩

end SM5714Battery
